import Mathlib

/-!
Verification of the Game of Life core in `src/gameoflife.js`.

The source stores each generation in a browser `ImageData` pixel buffer
`[r, g, b, a, r, g, b, a, ...]` of `4 * width * height` bytes.  We model the
buffer as a function from integer indices to `Option Nat`: `some v` is the
byte stored at an index inside the buffer, `none` is the JavaScript
`undefined` that a typed array yields when read outside its bounds.  Typed
array writes at out-of-range indices are silently dropped, which the model
reflects in `jsArraySet`.  Stateful code is embedded by explicit state
passing: `write` returns the updated buffer, and `tick`/`seed` fold the
per-cell writes over the coordinate ranges exactly as the source's nested
`for` loops do.
-/

set_option maxHeartbeats 1000000

namespace GameOfLife

/-- Red-channel value written for a living cell (the source's `alive = 0`). -/
def alive : Nat := 0

/-- Red-channel value written for a dead cell (the source's `dead = 255`). -/
def dead : Nat := 255

/-- Model of a browser `ImageData`: a width, a height and a byte buffer. -/
@[ext]
structure ImageData where
  width : Nat
  height : Nat
  data : Int → Option Nat

/-- Assignment `d[i] = v` on a typed array: the store is dropped when the
index is outside the buffer (i.e. when reading it gives `undefined`). -/
def jsArraySet (d : Int → Option Nat) (i : Int) (v : Nat) : Int → Option Nat :=
  fun j => if j = i ∧ (d i).isSome = true then some v else d j

/-- The source's `cell(before, x, y)`:
`(before.data[(x * 4) + (y * width * 4)] === alive) ? 1 : 0`.
A read of `undefined` (out of buffer) compares unequal to `alive`, giving `0`. -/
def cell (width : Nat) (before : ImageData) (x y : Int) : Nat :=
  if before.data (x * 4 + y * width * 4) = some alive then 1 else 0

/-- The source's `neighborsLiving(before, x, y)`: the sum of `cell` over the
eight neighbor offsets, in the source's order. -/
def neighborsLiving (width : Nat) (before : ImageData) (x y : Int) : Nat :=
  cell width before (x - 1) y +
    cell width before (x + 1) y +
    cell width before (x + 0) (y + 1) +
    cell width before (x + 0) (y - 1) +
    cell width before (x + 1) (y + 1) +
    cell width before (x + 1) (y - 1) +
    cell width before (x - 1) (y + 1) +
    cell width before (x - 1) (y - 1)

/-- The source's `shouldLive(before, x, y)`:
`self && (neighbors === 2 || neighbors === 3) || (!self && neighbors === 3)`,
where `self` is truthy iff nonzero. -/
def shouldLive (width : Nat) (before : ImageData) (x y : Int) : Bool :=
  let self := cell width before x y
  let neighbors := neighborsLiving width before x y
  (self != 0 && (neighbors == 2 || neighbors == 3)) || (self == 0 && neighbors == 3)

/-- The source's `write(after, x, y, val)`: computes
`index = (x * 4) + (y * width * 4)` and stores `val, 255, 255, 255` at
`index + 0 .. index + 3`. -/
def write (width : Nat) (after : ImageData) (x y : Int) (val : Nat) : ImageData :=
  let index := x * 4 + y * width * 4
  { after with
    data :=
      jsArraySet
        (jsArraySet
          (jsArraySet
            (jsArraySet after.data (index + 0) val)
            (index + 1) 255)
          (index + 2) 255)
        (index + 3) 255 }

/-- `ctx.createImageData(width, height)`: a fresh buffer of
`4 * width * height` zero bytes. -/
def createImageData (width height : Nat) : ImageData :=
  { width := width, height := height
    data := fun j => if 0 ≤ j ∧ j < 4 * width * height then some 0 else none }

/-- The source's `tick()`, restricted to its computation: from the snapshot
`before` of the canvas it builds the new image `after` by the two nested
loops (`x` outer, `y` inner), writing `shouldLive ? alive : dead` at each
in-grid cell.  The surrounding `putImageData`/`setTimeout` are I/O to the
canvas and scheduler and are not part of the computed value. -/
def tick (width height : Nat) (before : ImageData) : ImageData :=
  (List.range width).foldl
    (fun after (x : Nat) =>
      (List.range height).foldl
        (fun after (y : Nat) =>
          write width after x y (if shouldLive width before x y then alive else dead))
        after)
    (createImageData width height)

/-- The source's `seed()`: `Math.random() > 0.5` is modelled by the oracle
`random x y`, and the loops write `alive`/`dead` accordingly into a fresh
image. -/
def seed (width height : Nat) (random : Nat → Nat → Bool) : ImageData :=
  (List.range width).foldl
    (fun after (x : Nat) =>
      (List.range height).foldl
        (fun after (y : Nat) =>
          write width after x y (if random x y then alive else dead))
        after)
    (createImageData width height)

/-! ### Generic loop form and canonical images -/

/-- The common shape of the `seed`/`tick` double loop, abstracted over the
red-channel value `v x y` written at each cell. -/
def fillLoop (w h : Nat) (v : Nat → Nat → Nat) (init : ImageData) : ImageData :=
  (List.range w).foldl
    (fun after (x : Nat) =>
      (List.range h).foldl (fun after (y : Nat) => write w after x y (v x y)) after)
    init

theorem tick_eq_fillLoop (w h : Nat) (b : ImageData) :
    tick w h b =
      fillLoop w h (fun x y => if shouldLive w b x y then alive else dead)
        (createImageData w h) := rfl

theorem seed_eq_fillLoop (w h : Nat) (r : Nat → Nat → Bool) :
    seed w h r =
      fillLoop w h (fun x y => if r x y then alive else dead)
        (createImageData w h) := rfl

/-- The byte at linear position `jn` of a canonical image whose red channel
at cell `(x, y)` is `v x y` and whose other channels are all `255`. -/
def canonByte (w : Nat) (v : Nat → Nat → Nat) (jn : Nat) : Nat :=
  if jn % 4 = 0 then v (jn / 4 % w) (jn / 4 / w) else 255

/-- The canonical image with red channel `v x y` at cell `(x, y)`. -/
def canonGridV (w h : Nat) (v : Nat → Nat → Nat) : ImageData :=
  { width := w, height := h
    data := fun j =>
      if 0 ≤ j ∧ j < 4 * w * h then some (canonByte w v j.toNat) else none }

/-- The canonical image whose living cells are exactly those with
`p x y = true`. -/
def canonGrid (w h : Nat) (p : Nat → Nat → Bool) : ImageData :=
  canonGridV w h (fun x y => if p x y then alive else dead)

/-- A buffer spans exactly the indices `[0, 4*w*h)`: reads there give a byte,
reads elsewhere give `undefined`.  Every image the program ever holds (a
`createImageData` result or a canvas snapshot) has this shape. -/
def hasSpan (w h : Nat) (a : ImageData) : Prop :=
  ∀ j : Int, (a.data j).isSome = true ↔ (0 ≤ j ∧ j < 4 * w * h)

/-! ### Buffer write lemmas -/

theorem jsArraySet_isSome (d : Int → Option Nat) (i : Int) (v : Nat) (j : Int) :
    ((jsArraySet d i v) j).isSome = (d j).isSome := by
  unfold jsArraySet
  by_cases hj : j = i ∧ (d i).isSome = true
  · rw [if_pos hj]
    rcases hj with ⟨h1, h2⟩
    rw [h1, h2]
    rfl
  · rw [if_neg hj]

theorem jsArraySet_apply_of_isSome (d : Int → Option Nat) (i : Int) (v : Nat)
    (hi : (d i).isSome = true) (j : Int) :
    jsArraySet d i v j = if j = i then some v else d j := by
  unfold jsArraySet
  by_cases hj : j = i
  · rw [if_pos ⟨hj, hi⟩, if_pos hj]
  · rw [if_neg (by intro hc; exact hj hc.1), if_neg hj]

theorem jsArraySet_apply_of_ne (d : Int → Option Nat) (i : Int) (v : Nat)
    (j : Int) (hj : j ≠ i) :
    jsArraySet d i v j = d j := by
  unfold jsArraySet
  rw [if_neg (by intro hc; exact hj hc.1)]

theorem jsArraySet_apply_iff (d : Int → Option Nat) (i : Int) (v : Nat) (P : Prop)
    [Decidable P] (hiff : (d i).isSome = true ↔ P) (j : Int) :
    jsArraySet d i v j = if j = i ∧ P then some v else d j := by
  unfold jsArraySet
  by_cases hj : j = i
  · subst hj
    by_cases hp : P
    · rw [if_pos ⟨rfl, hiff.2 hp⟩, if_pos ⟨rfl, hp⟩]
    · rw [if_neg (fun hc => hp (hiff.1 hc.2)), if_neg (fun hc => hp hc.2)]
  · rw [if_neg (fun hc => hj hc.1), if_neg (fun hc => hj hc.1)]

theorem write_width (w : Nat) (a : ImageData) (x y : Int) (v : Nat) :
    (write w a x y v).width = a.width := rfl

theorem write_height (w : Nat) (a : ImageData) (x y : Int) (v : Nat) :
    (write w a x y v).height = a.height := rfl

theorem write_isSome (w : Nat) (a : ImageData) (x y : Int) (v : Nat) (j : Int) :
    ((write w a x y v).data j).isSome = (a.data j).isSome := by
  unfold write
  simp only [jsArraySet_isSome]

theorem write_span (w h wd : Nat) (a : ImageData) (x y : Int) (v : Nat)
    (hspan : hasSpan w h a) : hasSpan w h (write wd a x y v) := by
  intro j
  rw [write_isSome]
  exact hspan j

theorem createImageData_span (w h : Nat) : hasSpan w h (createImageData w h) := by
  intro j
  unfold createImageData
  by_cases hj : 0 ≤ j ∧ j < 4 * w * h
  · simp [hj]
  · simp [hj]

/-! ### Index arithmetic -/

theorem cellBase_lt (w h x y : Nat) (hx : x < w) (hy : y < h) :
    x + w * y + 1 ≤ w * h := by
  have h2 : w + w * y = w * (y + 1) := by ring
  have h3 : w * (y + 1) ≤ w * h := Nat.mul_le_mul_left w hy
  omega

theorem blockIdx_nonneg (n : Nat) : (0 : Int) ≤ ((n : Nat) : Int) :=
  Int.natCast_nonneg n

theorem blockIdx_lt (w h x y c : Nat) (hx : x < w) (hy : y < h) (hc : c ≤ 3) :
    ((4 * (x + w * y) + c : Nat) : Int) < 4 * (w : Int) * (h : Int) := by
  have hb := cellBase_lt w h x y hx hy
  have h1 : 4 * (x + w * y) + c < 4 * (w * h) := by omega
  calc ((4 * (x + w * y) + c : Nat) : Int) < ((4 * (w * h) : Nat) : Int) := by exact_mod_cast h1
    _ = 4 * (w : Int) * (h : Int) := by push_cast; ring

theorem block_ne_col (w x x' : Nat) (hx : x < w) (hx' : x' < w) (hne : x ≠ x')
    (y y' c c' : Nat) (hc : c ≤ 3) (hc' : c' ≤ 3) :
    ((4 * (x + w * y) + c : Nat) : Int) ≠ ((4 * (x' + w * y') + c' : Nat) : Int) := by
  intro heq
  have hN : 4 * (x + w * y) + c = 4 * (x' + w * y') + c' := by exact_mod_cast heq
  have h1 : x + w * y = x' + w * y' := by omega
  have h2 : (x + w * y) % w = (x' + w * y') % w := by rw [h1]
  rw [Nat.add_mul_mod_self_left, Nat.add_mul_mod_self_left,
    Nat.mod_eq_of_lt hx, Nat.mod_eq_of_lt hx'] at h2
  exact hne h2

theorem pix_decompose (w h : Nat) (j : Int) (h0 : 0 ≤ j) (h1 : j < 4 * w * h) :
    ∃ x : Nat, x < w ∧ ∃ y : Nat, y < h ∧ ∃ c : Nat, c ≤ 3 ∧
      j = ((4 * (x + w * y) + c : Nat) : Int) := by
  have hb : (4 : Int) * w * h = ((4 * (w * h) : Nat) : Int) := by push_cast; ring
  rw [hb] at h1
  have hjn : j.toNat < 4 * (w * h) := by omega
  have hwh : 0 < w * h := by omega
  have hw : 0 < w := by
    rcases Nat.eq_zero_or_pos w with h' | h'
    · rw [h'] at hwh; simp at hwh
    · exact h'
  refine ⟨j.toNat / 4 % w, Nat.mod_lt _ hw, j.toNat / 4 / w, ?_, j.toNat % 4, by omega, ?_⟩
  · rw [Nat.div_lt_iff_lt_mul hw, Nat.mul_comm]
    omega
  · have e1 : j.toNat / 4 % w + w * (j.toNat / 4 / w) = j.toNat / 4 := Nat.mod_add_div _ _
    rw [e1]
    omega

/-! ### Characterization of `write` on an in-range pixel -/

theorem write_data_pix (w h : Nat) (a : ImageData) (hspan : hasSpan w h a)
    (x y : Nat) (hx : x < w) (hy : y < h) (v : Nat) (j : Int) :
    (write w a x y v).data j =
      if j = ((4 * (x + w * y) : Nat) : Int) then some v
      else if j = ((4 * (x + w * y) + 1 : Nat) : Int) ∨
          j = ((4 * (x + w * y) + 2 : Nat) : Int) ∨
          j = ((4 * (x + w * y) + 3 : Nat) : Int) then some 255
      else a.data j := by
  have hsome : ∀ c : Nat, c ≤ 3 →
      (a.data ((4 * (x + w * y) + c : Nat) : Int)).isSome = true := by
    intro c hc
    rw [hspan]
    exact ⟨blockIdx_nonneg _, blockIdx_lt w h x y c hx hy hc⟩
  have s0 : (a.data ((4 * (x + w * y) : Nat) : Int)).isSome = true := by
    have := hsome 0 (by omega)
    simpa using this
  have s1 := hsome 1 (by omega)
  have s2 := hsome 2 (by omega)
  have s3 := hsome 3 (by omega)
  have e0 : ((x : Int) * 4 + (y : Int) * (w : Int) * 4 + 0) =
      ((4 * (x + w * y) : Nat) : Int) := by push_cast; ring
  have e1 : ((x : Int) * 4 + (y : Int) * (w : Int) * 4 + 1) =
      ((4 * (x + w * y) + 1 : Nat) : Int) := by push_cast; ring
  have e2 : ((x : Int) * 4 + (y : Int) * (w : Int) * 4 + 2) =
      ((4 * (x + w * y) + 2 : Nat) : Int) := by push_cast; ring
  have e3 : ((x : Int) * 4 + (y : Int) * (w : Int) * 4 + 3) =
      ((4 * (x + w * y) + 3 : Nat) : Int) := by push_cast; ring
  show (jsArraySet
      (jsArraySet
        (jsArraySet
          (jsArraySet a.data ((x : Int) * 4 + (y : Int) * (w : Int) * 4 + 0) v)
          ((x : Int) * 4 + (y : Int) * (w : Int) * 4 + 1) 255)
        ((x : Int) * 4 + (y : Int) * (w : Int) * 4 + 2) 255)
      ((x : Int) * 4 + (y : Int) * (w : Int) * 4 + 3) 255) j = _
  rw [e0, e1, e2, e3]
  have t1 : ((jsArraySet a.data ((4 * (x + w * y) : Nat) : Int) v)
      ((4 * (x + w * y) + 1 : Nat) : Int)).isSome = true := by
    rw [jsArraySet_isSome]; exact s1
  have t2 : ((jsArraySet (jsArraySet a.data ((4 * (x + w * y) : Nat) : Int) v)
      ((4 * (x + w * y) + 1 : Nat) : Int) 255)
      ((4 * (x + w * y) + 2 : Nat) : Int)).isSome = true := by
    rw [jsArraySet_isSome, jsArraySet_isSome]; exact s2
  have t3 : ((jsArraySet (jsArraySet (jsArraySet a.data
      ((4 * (x + w * y) : Nat) : Int) v)
      ((4 * (x + w * y) + 1 : Nat) : Int) 255)
      ((4 * (x + w * y) + 2 : Nat) : Int) 255)
      ((4 * (x + w * y) + 3 : Nat) : Int)).isSome = true := by
    rw [jsArraySet_isSome, jsArraySet_isSome, jsArraySet_isSome]; exact s3
  rw [jsArraySet_apply_of_isSome _ _ _ t3 j, jsArraySet_apply_of_isSome _ _ _ t2 j,
    jsArraySet_apply_of_isSome _ _ _ t1 j, jsArraySet_apply_of_isSome _ _ _ s0 j]
  split_ifs <;> first | rfl | omega

/-! ### The inner loop over one column -/

/-- The inner `for (y ...)` loop of `tick`/`seed` at column `x`, run for
`y = 0, ..., m-1`. -/
def colFill (w : Nat) (v : Nat → Nat → Nat) (x : Nat) (a : ImageData) (m : Nat) : ImageData :=
  (List.range m).foldl (fun a (y : Nat) => write w a x y (v x y)) a

theorem colFill_succ (w : Nat) (v : Nat → Nat → Nat) (x : Nat) (a : ImageData) (m : Nat) :
    colFill w v x a (m + 1) = write w (colFill w v x a m) x m (v x m) := by
  unfold colFill
  rw [List.range_succ, List.foldl_append]
  rfl

theorem colFill_span (w h : Nat) (v : Nat → Nat → Nat) (x : Nat) (a : ImageData) (m : Nat)
    (hspan : hasSpan w h a) : hasSpan w h (colFill w v x a m) := by
  induction m with
  | zero => exact hspan
  | succ m ih =>
    rw [colFill_succ]
    exact write_span w h w _ _ _ _ ih

theorem colFill_width (w : Nat) (v : Nat → Nat → Nat) (x : Nat) (a : ImageData) (m : Nat) :
    (colFill w v x a m).width = a.width := by
  induction m with
  | zero => rfl
  | succ m ih => rw [colFill_succ, write_width, ih]

theorem colFill_height (w : Nat) (v : Nat → Nat → Nat) (x : Nat) (a : ImageData) (m : Nat) :
    (colFill w v x a m).height = a.height := by
  induction m with
  | zero => rfl
  | succ m ih => rw [colFill_succ, write_height, ih]

theorem colFill_data_untouched (w h : Nat) (v : Nat → Nat → Nat) (x : Nat) (a : ImageData)
    (hspan : hasSpan w h a) (hx : x < w) :
    ∀ m : Nat, m ≤ h → ∀ j : Int,
      (∀ y : Nat, y < m → ∀ c : Nat, c ≤ 3 → j ≠ ((4 * (x + w * y) + c : Nat) : Int)) →
      (colFill w v x a m).data j = a.data j := by
  intro m
  induction m with
  | zero => intro _ j _; rfl
  | succ m ih =>
    intro hm j hj
    have hsp : hasSpan w h (colFill w v x a m) := colFill_span w h v x a m hspan
    rw [colFill_succ, write_data_pix w h _ hsp x m hx (by omega) _ j]
    have hne0 : ¬(j = ((4 * (x + w * m) : Nat) : Int)) := by
      intro h0
      exact hj m (by omega) 0 (by omega) (by simpa using h0)
    have hne123 : ¬(j = ((4 * (x + w * m) + 1 : Nat) : Int) ∨
        j = ((4 * (x + w * m) + 2 : Nat) : Int) ∨
        j = ((4 * (x + w * m) + 3 : Nat) : Int)) := by
      rintro (h' | h' | h')
      · exact hj m (by omega) 1 (by omega) h'
      · exact hj m (by omega) 2 (by omega) h'
      · exact hj m (by omega) 3 (by omega) h'
    rw [if_neg hne0, if_neg hne123]
    exact ih (by omega) j (fun y hy c hc => hj y (by omega) c hc)

theorem colFill_data_pix (w h : Nat) (v : Nat → Nat → Nat) (x : Nat) (a : ImageData)
    (hspan : hasSpan w h a) (hx : x < w) :
    ∀ m : Nat, m ≤ h → ∀ y : Nat, y < m → ∀ c : Nat, c ≤ 3 →
      (colFill w v x a m).data ((4 * (x + w * y) + c : Nat) : Int) =
        if c = 0 then some (v x y) else some 255 := by
  intro m
  induction m with
  | zero => intro _ y hy; exact absurd hy (Nat.not_lt_zero y)
  | succ m ih =>
    intro hm y hy c hc
    have hsp : hasSpan w h (colFill w v x a m) := colFill_span w h v x a m hspan
    rw [colFill_succ, write_data_pix w h _ hsp x m hx (by omega)]
    by_cases hym : y = m
    · subst hym
      by_cases hc0 : c = 0
      · subst hc0
        rw [if_pos (by norm_num), if_pos rfl]
      · rw [if_neg (by omega), if_pos (by omega), if_neg hc0]
    · have hlt : y < m := by omega
      have hww : w * (y + 1) ≤ w * m := Nat.mul_le_mul_left w (by omega)
      have hexp : w * (y + 1) = w * y + w := by ring
      rw [if_neg (by omega), if_neg (by omega)]
      exact ih (by omega) y hlt c hc

/-! ### The outer loop over the columns -/

/-- The outer `for (x ...)` loop of `tick`/`seed`, run for columns
`x = 0, ..., n-1`. -/
def loopFill (w h : Nat) (v : Nat → Nat → Nat) (init : ImageData) (n : Nat) : ImageData :=
  (List.range n).foldl (fun a (x : Nat) => colFill w v x a h) init

theorem fillLoop_eq_loopFill (w h : Nat) (v : Nat → Nat → Nat) (init : ImageData) :
    fillLoop w h v init = loopFill w h v init w := rfl

theorem loopFill_succ (w h : Nat) (v : Nat → Nat → Nat) (init : ImageData) (n : Nat) :
    loopFill w h v init (n + 1) = colFill w v n (loopFill w h v init n) h := by
  unfold loopFill
  rw [List.range_succ, List.foldl_append]
  rfl

theorem loopFill_span (w h : Nat) (v : Nat → Nat → Nat) (init : ImageData) (n : Nat)
    (hspan : hasSpan w h init) : hasSpan w h (loopFill w h v init n) := by
  induction n with
  | zero => exact hspan
  | succ n ih =>
    rw [loopFill_succ]
    exact colFill_span w h v n _ h ih

theorem loopFill_width (w h : Nat) (v : Nat → Nat → Nat) (init : ImageData) (n : Nat) :
    (loopFill w h v init n).width = init.width := by
  induction n with
  | zero => rfl
  | succ n ih => rw [loopFill_succ, colFill_width, ih]

theorem loopFill_height (w h : Nat) (v : Nat → Nat → Nat) (init : ImageData) (n : Nat) :
    (loopFill w h v init n).height = init.height := by
  induction n with
  | zero => rfl
  | succ n ih => rw [loopFill_succ, colFill_height, ih]

theorem loopFill_data_untouched (w h : Nat) (v : Nat → Nat → Nat) (init : ImageData)
    (hspan : hasSpan w h init) :
    ∀ n : Nat, n ≤ w → ∀ j : Int,
      (∀ x : Nat, x < n → ∀ y : Nat, y < h → ∀ c : Nat, c ≤ 3 →
        j ≠ ((4 * (x + w * y) + c : Nat) : Int)) →
      (loopFill w h v init n).data j = init.data j := by
  intro n
  induction n with
  | zero => intro _ j _; rfl
  | succ n ih =>
    intro hn j hj
    have hsp : hasSpan w h (loopFill w h v init n) := loopFill_span w h v init n hspan
    rw [loopFill_succ,
      colFill_data_untouched w h v n _ hsp (by omega) h (le_refl h) j
        (fun y hy c hc => hj n (by omega) y hy c hc)]
    exact ih (by omega) j (fun x hx y hy c hc => hj x (by omega) y hy c hc)

theorem loopFill_data_pix (w h : Nat) (v : Nat → Nat → Nat) (init : ImageData)
    (hspan : hasSpan w h init) :
    ∀ n : Nat, n ≤ w → ∀ x : Nat, x < n → ∀ y : Nat, y < h → ∀ c : Nat, c ≤ 3 →
      (loopFill w h v init n).data ((4 * (x + w * y) + c : Nat) : Int) =
        if c = 0 then some (v x y) else some 255 := by
  intro n
  induction n with
  | zero => intro _ x hx; exact absurd hx (Nat.not_lt_zero x)
  | succ n ih =>
    intro hn x hx y hy c hc
    have hsp : hasSpan w h (loopFill w h v init n) := loopFill_span w h v init n hspan
    rw [loopFill_succ]
    by_cases hxn : x = n
    · subst hxn
      exact colFill_data_pix w h v x _ hsp (by omega) h (le_refl h) y hy c hc
    · have hxlt : x < n := by omega
      rw [colFill_data_untouched w h v n _ hsp (by omega) h (le_refl h) _
        (fun y' hy' c' hc' => block_ne_col w x n (by omega) (by omega) hxn y y' c c' hc hc')]
      exact ih (by omega) x hxlt y hy c hc

/-! ### The double loop produces the canonical image -/

theorem fillLoop_canon (w h : Nat) (v : Nat → Nat → Nat) :
    fillLoop w h v (createImageData w h) = canonGridV w h v := by
  rw [fillLoop_eq_loopFill]
  have hspan := createImageData_span w h
  apply ImageData.ext
  · rw [loopFill_width]; rfl
  · rw [loopFill_height]; rfl
  · funext j
    by_cases hin : 0 ≤ j ∧ j < 4 * w * h
    · obtain ⟨x, hx, y, hy, c, hc, rfl⟩ := pix_decompose w h j hin.1 hin.2
      rw [loopFill_data_pix w h v _ hspan w (le_refl w) x hx y hy c hc]
      have hw : 0 < w := by omega
      have htn : (((4 * (x + w * y) + c : Nat) : Int)).toNat = 4 * (x + w * y) + c := by omega
      have hmod : (4 * (x + w * y) + c) % 4 = c := by omega
      have hdiv : (4 * (x + w * y) + c) / 4 = x + w * y := by omega
      have hxm : (x + w * y) % w = x := by
        rw [Nat.add_mul_mod_self_left, Nat.mod_eq_of_lt hx]
      have hxd : (x + w * y) / w = y := by
        rw [Nat.add_mul_div_left _ _ hw, Nat.div_eq_of_lt hx]
        omega
      show _ = (canonGridV w h v).data _
      unfold canonGridV canonByte
      dsimp only
      rw [if_pos hin, htn, hmod, hdiv, hxm, hxd]
      by_cases hc0 : c = 0
      · rw [if_pos hc0, if_pos hc0]
      · rw [if_neg hc0, if_neg hc0]
    · rw [loopFill_data_untouched w h v _ hspan w (le_refl w) j ?_]
      · show (createImageData w h).data j = (canonGridV w h v).data j
        unfold createImageData canonGridV
        dsimp only
        rw [if_neg hin, if_neg hin]
      · intro x hx y hy c hc heq
        exact hin (heq ▸ ⟨blockIdx_nonneg _, blockIdx_lt w h x y c hx hy hc⟩)

/-- The computation of `tick` writes exactly the canonical image of the
per-cell life decision. -/
theorem tick_eq_canon (w h : Nat) (b : ImageData) :
    tick w h b =
      canonGridV w h (fun x y => if shouldLive w b x y then alive else dead) := by
  rw [tick_eq_fillLoop]
  exact fillLoop_canon w h _

/-- The computation of `seed` writes exactly the canonical image of the
random decisions. -/
theorem seed_eq_canon (w h : Nat) (r : Nat → Nat → Bool) :
    seed w h r = canonGridV w h (fun x y => if r x y then alive else dead) := by
  rw [seed_eq_fillLoop]
  exact fillLoop_canon w h _

/-! ### Reading cells of canonical images -/

/-- The value `cell` returns on a canonical 0/1 image: the read lands on the
red byte of the pixel whose linear index is `x + y * w`, whenever that index
is inside the buffer; everywhere else the typed array yields `undefined` and
the cell reads as dead.  This is the raw wrap-around behavior of the source's
unchecked index arithmetic. -/
def lookP (w h : Nat) (p : Nat → Nat → Bool) (x y : Int) : Nat :=
  if 0 ≤ x + y * w ∧ x + y * w < (w : Int) * h ∧
      p ((x + y * w).toNat % w) ((x + y * w).toNat / w) = true
  then 1 else 0

theorem cell_canonGrid (w h : Nat) (p : Nat → Nat → Bool) (x y : Int) :
    cell w (canonGrid w h p) x y = lookP w h p x y := by
  unfold cell canonGrid canonGridV canonByte lookP
  dsimp only
  have hidx : (x * 4 + y * (w : Int) * 4) = 4 * (x + y * w) := by ring
  rw [hidx]
  by_cases hq : 0 ≤ x + y * (w : Int) ∧ x + y * (w : Int) < (w : Int) * (h : Int)
  · have h4 : (4 : Int) * ((w : Int) * (h : Int)) = 4 * (w : Int) * (h : Int) := by ring
    have hb : 0 ≤ 4 * (x + y * (w : Int)) ∧ 4 * (x + y * (w : Int)) < 4 * w * h := by
      constructor
      · omega
      · omega
    rw [if_pos hb]
    have ht : (4 * (x + y * (w : Int))).toNat = 4 * (x + y * (w : Int)).toNat := by omega
    rw [ht]
    have hm : 4 * (x + y * (w : Int)).toNat % 4 = 0 := by omega
    have hd : 4 * (x + y * (w : Int)).toNat / 4 = (x + y * (w : Int)).toNat := by omega
    rw [if_pos hm, hd]
    cases hpv : p ((x + y * (w : Int)).toNat % w) ((x + y * (w : Int)).toNat / w) with
    | true => simp [hpv, alive, dead, hq.1, hq.2]
    | false => simp [hpv, alive, dead]
  · have h4 : (4 : Int) * ((w : Int) * (h : Int)) = 4 * (w : Int) * (h : Int) := by ring
    have hnb : ¬(0 ≤ 4 * (x + y * (w : Int)) ∧ 4 * (x + y * (w : Int)) < 4 * w * h) := by
      intro hcon
      exact hq ⟨by omega, by omega⟩
    have hnq : ¬(0 ≤ x + y * (w : Int) ∧ x + y * (w : Int) < (w : Int) * h ∧
        p ((x + y * (w : Int)).toNat % w) ((x + y * (w : Int)).toNat / w) = true) :=
      fun hcon => hq ⟨hcon.1, hcon.2.1⟩
    rw [if_neg hnb, if_neg hnq]
    simp

theorem canonV_data_block (w h : Nat) (v : Nat → Nat → Nat) (x y c : Nat)
    (hx : x < w) (hy : y < h) (hc : c ≤ 3) :
    (canonGridV w h v).data ((4 * (x + w * y) + c : Nat) : Int) =
      some (if c = 0 then v x y else 255) := by
  unfold canonGridV canonByte
  dsimp only
  rw [if_pos ⟨blockIdx_nonneg _, blockIdx_lt w h x y c hx hy hc⟩]
  have hw : 0 < w := by omega
  have htn : (((4 * (x + w * y) + c : Nat) : Int)).toNat = 4 * (x + w * y) + c := by omega
  have hmod : (4 * (x + w * y) + c) % 4 = c := by omega
  have hdiv : (4 * (x + w * y) + c) / 4 = x + w * y := by omega
  have hxm : (x + w * y) % w = x := by
    rw [Nat.add_mul_mod_self_left, Nat.mod_eq_of_lt hx]
  have hxd : (x + w * y) / w = y := by
    rw [Nat.add_mul_div_left _ _ hw, Nat.div_eq_of_lt hx]
    omega
  rw [htn, hmod, hdiv, hxm, hxd]

theorem cell_canonV_in (w h : Nat) (v : Nat → Nat → Nat) (x y : Nat)
    (hx : x < w) (hy : y < h) :
    cell w (canonGridV w h v) x y = if v x y = alive then 1 else 0 := by
  unfold cell
  have hidx : ((x : Int) * 4 + (y : Int) * (w : Int) * 4) =
      ((4 * (x + w * y) + 0 : Nat) : Int) := by push_cast; ring
  rw [hidx, canonV_data_block w h v x y 0 hx hy (by omega)]
  simp

/-! ### Reductions of `lookP` at the coordinate shapes read by `shouldLive` -/

theorem lookP_congr_q (w h : Nat) (p : Nat → Nat → Bool) (x y x' y' : Int)
    (heq : x + y * w = x' + y' * w) :
    lookP w h p x y = lookP w h p x' y' := by
  unfold lookP
  rw [heq]

theorem lookP_in (w h : Nat) (p : Nat → Nat → Bool) (x y : Nat)
    (hx : x < w) (hy : y < h) :
    lookP w h p x y = if p x y then 1 else 0 := by
  unfold lookP
  have hq : ((x : Int) + (y : Int) * w) = ((x + w * y : Nat) : Int) := by push_cast; ring
  rw [hq]
  have hb := cellBase_lt w h x y hx hy
  have h0 : (0 : Int) ≤ ((x + w * y : Nat) : Int) := blockIdx_nonneg _
  have h1 : ((x + w * y : Nat) : Int) < (w : Int) * (h : Int) := by
    calc ((x + w * y : Nat) : Int) < ((w * h : Nat) : Int) := by
          exact_mod_cast (by omega : x + w * y < w * h)
      _ = (w : Int) * (h : Int) := by push_cast; ring
  have hw : 0 < w := by omega
  have htn : (((x + w * y : Nat) : Int)).toNat = x + w * y := by omega
  have hxm : (x + w * y) % w = x := by
    rw [Nat.add_mul_mod_self_left, Nat.mod_eq_of_lt hx]
  have hxd : (x + w * y) / w = y := by
    rw [Nat.add_mul_div_left _ _ hw, Nat.div_eq_of_lt hx]
    omega
  rw [htn, hxm, hxd]
  by_cases hp : p x y = true
  · rw [if_pos ⟨h0, h1, hp⟩, if_pos hp]
  · rw [if_neg (fun hcon => hp hcon.2.2), if_neg hp]

theorem lookP_left (w h : Nat) (p : Nat → Nat → Bool) (hw : 0 < w)
    (y : Nat) (hy : y ≤ h) :
    lookP w h p (-1) y = if 1 ≤ y ∧ p (w - 1) (y - 1) = true then 1 else 0 := by
  by_cases hy1 : 1 ≤ y
  · obtain ⟨w', rfl⟩ : ∃ w', w = w' + 1 := ⟨w - 1, by omega⟩
    obtain ⟨y', rfl⟩ : ∃ y', y = y' + 1 := ⟨y - 1, by omega⟩
    have hq : (-1 : Int) + ((y' + 1 : Nat) : Int) * ((w' + 1 : Nat) : Int) =
        ((w' : Nat) : Int) + ((y' : Nat) : Int) * ((w' + 1 : Nat) : Int) := by
      push_cast; ring
    rw [lookP_congr_q (w' + 1) h p _ _ _ _ hq,
      lookP_in (w' + 1) h p w' y' (by omega) (by omega)]
    have e1 : w' + 1 - 1 = w' := by omega
    have e2 : y' + 1 - 1 = y' := by omega
    rw [e1, e2]
    by_cases hp : p w' y' = true
    · rw [if_pos hp, if_pos ⟨by omega, hp⟩]
    · rw [if_neg hp, if_neg (fun hcon => hp hcon.2)]
  · have hy0 : y = 0 := by omega
    subst hy0
    unfold lookP
    rw [if_neg (by intro hcon; omega), if_neg (by intro hcon; omega)]

theorem lookP_right (w h : Nat) (p : Nat → Nat → Bool) (hw : 0 < w)
    (y : Int) (hy : -1 ≤ y) :
    lookP w h p w y = if y + 1 < h ∧ p 0 (y + 1).toNat = true then 1 else 0 := by
  obtain ⟨k, rfl⟩ : ∃ k : Nat, y = (k : Int) - 1 := ⟨(y + 1).toNat, by omega⟩
  have htk : ((k : Int) - 1 + 1).toNat = k := by omega
  rw [htk]
  by_cases hlt : (k : Int) - 1 + 1 < h
  · have hkh : k < h := by omega
    have hq : ((w : Nat) : Int) + ((k : Int) - 1) * ((w : Nat) : Int) =
        ((0 : Nat) : Int) + ((k : Nat) : Int) * ((w : Nat) : Int) := by push_cast; ring
    rw [lookP_congr_q w h p _ _ _ _ hq, lookP_in w h p 0 k hw hkh]
    by_cases hp : p 0 k = true
    · rw [if_pos hp, if_pos ⟨hlt, hp⟩]
    · rw [if_neg hp, if_neg (fun hcon => hp hcon.2)]
  · have hhk : h ≤ k := by omega
    have hmul : w * h ≤ w * k := Nat.mul_le_mul_left w hhk
    have hq : ((w : Nat) : Int) + ((k : Int) - 1) * ((w : Nat) : Int) =
        ((w * k : Nat) : Int) := by push_cast; ring
    unfold lookP
    rw [hq, if_neg, if_neg (fun hcon => hlt hcon.1)]
    intro hcon
    have hwh : ((w * h : Nat) : Int) = (w : Int) * (h : Int) := by push_cast; ring
    have := hcon.2.1
    omega

theorem lookP_top (w h : Nat) (p : Nat → Nat → Bool) (x : Int) (hx : x < w) :
    lookP w h p x (-1) = 0 := by
  unfold lookP
  rw [if_neg]
  intro hcon
  have := hcon.1
  omega

theorem lookP_bot (w h : Nat) (p : Nat → Nat → Bool) (x : Int) (hx0 : 0 ≤ x) :
    lookP w h p x h = 0 := by
  unfold lookP
  rw [if_neg]
  intro hcon
  have hwh : ((h : Nat) : Int) * (w : Int) = (w : Int) * (h : Int) := by ring
  have := hcon.2.1
  omega

/-- For a pattern whose living cells all lie strictly inside the grid (away
from all four borders), every neighbor read that `shouldLive` performs sees
exactly the pattern at the clamped coordinates: the wrap-around reads only
ever land on border cells, which are dead for such a pattern. -/
theorem lookP_supp (w h : Nat) (p : Nat → Nat → Bool)
    (hsupp : ∀ a b : Nat, p a b = true → 1 ≤ a ∧ a + 1 < w ∧ 1 ≤ b ∧ b + 1 < h)
    (x y : Int) (hx1 : -1 ≤ x) (hx2 : x ≤ w) (hy1 : -1 ≤ y) (hy2 : y ≤ h) :
    lookP w h p x y = if p x.toNat y.toNat = true then 1 else 0 := by
  have hp0 : ∀ b, p 0 b = false := by
    intro b
    cases hpb : p 0 b
    · rfl
    · have := hsupp 0 b hpb; omega
  have hpw1 : ∀ b, p (w - 1) b = false := by
    intro b
    cases hpb : p (w - 1) b
    · rfl
    · have := hsupp (w - 1) b hpb; omega
  have hpww : ∀ b, p w b = false := by
    intro b
    cases hpb : p w b
    · rfl
    · have := hsupp w b hpb; omega
  have hrow0 : ∀ a, p a 0 = false := by
    intro a
    cases hpa : p a 0
    · rfl
    · have := hsupp a 0 hpa; omega
  have hrowh : ∀ a, p a h = false := by
    intro a
    cases hpa : p a h
    · rfl
    · have := hsupp a h hpa; omega
  rcases (show x = -1 ∨ (0 ≤ x ∧ x < w) ∨ x = (w : Int) by omega) with hxc | hxc | hxc
  · subst hxc
    rw [show ((-1 : Int)).toNat = 0 from rfl, hp0]
    rcases (show y = -1 ∨ 0 ≤ y by omega) with hyc | hyc
    · subst hyc
      unfold lookP
      rw [if_neg (by intro hcon; have := hcon.1; omega)]
      simp
    · obtain ⟨k, rfl⟩ : ∃ k : Nat, y = (k : Int) := ⟨y.toNat, by omega⟩
      by_cases hw0 : 0 < w
      · rw [lookP_left w h p hw0 k (by omega), hpw1]
        simp
      · have hw' : w = 0 := by omega
        subst hw'
        unfold lookP
        rw [if_neg (by intro hcon; have h1 := hcon.1; have h2 := hcon.2.1; omega)]
        simp
  · obtain ⟨a, rfl⟩ : ∃ a : Nat, x = (a : Int) := ⟨x.toNat, by omega⟩
    have haw : a < w := by omega
    rw [show (((a : Nat) : Int)).toNat = a from by omega]
    rcases (show y = -1 ∨ (0 ≤ y ∧ y < h) ∨ y = (h : Int) by omega) with hyc | hyc | hyc
    · subst hyc
      rw [lookP_top w h p a (by omega), show ((-1 : Int)).toNat = 0 from rfl, hrow0]
      simp
    · obtain ⟨b, rfl⟩ : ∃ b : Nat, y = (b : Int) := ⟨y.toNat, by omega⟩
      rw [show (((b : Nat) : Int)).toNat = b from by omega,
        lookP_in w h p a b haw (by omega)]
    · subst hyc
      rw [lookP_bot w h p a (by omega), show (((h : Nat) : Int)).toNat = h from by omega,
        hrowh]
      simp
  · subst hxc
    rw [show (((w : Nat) : Int)).toNat = w from by omega, hpww]
    by_cases hw0 : 0 < w
    · rw [lookP_right w h p hw0 y hy1, hp0]
      simp
    · have hw' : w = 0 := by omega
      subst hw'
      unfold lookP
      rw [if_neg (by intro hcon; have h1 := hcon.1; have h2 := hcon.2.1; omega)]
      simp

/-- The pure cell-level life rule that `shouldLive` computes on a canonical
image whose pattern keeps away from the borders.  Coordinate clamping uses
truncated subtraction, which is harmless because the pattern is dead on the
borders. -/
def lifeB (p : Nat → Nat → Bool) (x y : Nat) : Bool :=
  let self : Nat := if p x y then 1 else 0
  let neighbors : Nat :=
    (if p (x - 1) y then 1 else 0) + (if p (x + 1) y then 1 else 0) +
      (if p x (y + 1) then 1 else 0) + (if p x (y - 1) then 1 else 0) +
      (if p (x + 1) (y + 1) then 1 else 0) + (if p (x + 1) (y - 1) then 1 else 0) +
      (if p (x - 1) (y + 1) then 1 else 0) + (if p (x - 1) (y - 1) then 1 else 0)
  (self != 0 && (neighbors == 2 || neighbors == 3)) || (self == 0 && neighbors == 3)

theorem shouldLive_canon_supp (w h : Nat) (p : Nat → Nat → Bool)
    (hsupp : ∀ a b : Nat, p a b = true → 1 ≤ a ∧ a + 1 < w ∧ 1 ≤ b ∧ b + 1 < h)
    (x y : Nat) (hx : x < w) (hy : y < h) :
    shouldLive w (canonGrid w h p) x y = lifeB p x y := by
  simp only [shouldLive, lifeB, neighborsLiving, cell_canonGrid, add_zero]
  rw [lookP_supp w h p hsupp (x : Int) (y : Int) (by omega) (by omega) (by omega) (by omega),
    lookP_supp w h p hsupp ((x : Int) - 1) (y : Int) (by omega) (by omega) (by omega) (by omega),
    lookP_supp w h p hsupp ((x : Int) + 1) (y : Int) (by omega) (by omega) (by omega) (by omega),
    lookP_supp w h p hsupp (x : Int) ((y : Int) + 1) (by omega) (by omega) (by omega) (by omega),
    lookP_supp w h p hsupp (x : Int) ((y : Int) - 1) (by omega) (by omega) (by omega) (by omega),
    lookP_supp w h p hsupp ((x : Int) + 1) ((y : Int) + 1) (by omega) (by omega) (by omega) (by omega),
    lookP_supp w h p hsupp ((x : Int) + 1) ((y : Int) - 1) (by omega) (by omega) (by omega) (by omega),
    lookP_supp w h p hsupp ((x : Int) - 1) ((y : Int) + 1) (by omega) (by omega) (by omega) (by omega),
    lookP_supp w h p hsupp ((x : Int) - 1) ((y : Int) - 1) (by omega) (by omega) (by omega) (by omega)]
  rw [show ((x : Int) - 1).toNat = x - 1 from by omega,
    show ((x : Int) + 1).toNat = x + 1 from by omega,
    show ((y : Int) - 1).toNat = y - 1 from by omega,
    show ((y : Int) + 1).toNat = y + 1 from by omega,
    show ((x : Int)).toNat = x from by omega,
    show ((y : Int)).toNat = y from by omega]

theorem mul_pos_parts (w h : Nat) (hwh : 0 < w * h) : 0 < w ∧ 0 < h := by
  constructor
  · rcases Nat.eq_zero_or_pos w with h' | h'
    · rw [h'] at hwh; omega
    · exact h'
  · rcases Nat.eq_zero_or_pos h with h' | h'
    · rw [h'] at hwh
      have : w * 0 = 0 := by ring
      omega
    · exact h'

/-- Two canonical images with the same per-cell values agree. -/
theorem canonGridV_congr (w h : Nat) (v₁ v₂ : Nat → Nat → Nat)
    (hv : ∀ x y : Nat, x < w → y < h → v₁ x y = v₂ x y) :
    canonGridV w h v₁ = canonGridV w h v₂ := by
  apply ImageData.ext
  · rfl
  · rfl
  · funext j
    unfold canonGridV
    dsimp only
    by_cases hin : 0 ≤ j ∧ j < 4 * (w : Int) * h
    · rw [if_pos hin, if_pos hin]
      have hb : (4 : Int) * w * h = ((4 * (w * h) : Nat) : Int) := by push_cast; ring
      have hjn : j.toNat < 4 * (w * h) := by omega
      have hwh : 0 < w * h := by omega
      obtain ⟨hw, hh⟩ := mul_pos_parts w h hwh
      unfold canonByte
      by_cases hm : j.toNat % 4 = 0
      · have hy : j.toNat / 4 / w < h := by
          rw [Nat.div_lt_iff_lt_mul hw, Nat.mul_comm]
          omega
        rw [if_pos hm, if_pos hm, hv _ _ (Nat.mod_lt _ hw) hy]
      · rw [if_neg hm, if_neg hm]
    · rw [if_neg hin, if_neg hin]

/-! ### The blinker patterns -/

/-- The horizontal blinker: living cells exactly `(1,2), (2,2), (3,2)`. -/
def blinkH : Nat → Nat → Bool := fun x y => decide (y = 2 ∧ 1 ≤ x ∧ x ≤ 3)

/-- The vertical blinker: living cells exactly `(2,1), (2,2), (2,3)`. -/
def blinkV : Nat → Nat → Bool := fun x y => decide (x = 2 ∧ 1 ≤ y ∧ y ≤ 3)

theorem blinkH_supp (w h : Nat) (hw : 5 ≤ w) (hh : 5 ≤ h) :
    ∀ a b : Nat, blinkH a b = true → 1 ≤ a ∧ a + 1 < w ∧ 1 ≤ b ∧ b + 1 < h := by
  intro a b hab
  simp only [blinkH, decide_eq_true_eq] at hab
  omega

theorem blinkV_supp (w h : Nat) (hw : 5 ≤ w) (hh : 5 ≤ h) :
    ∀ a b : Nat, blinkV a b = true → 1 ≤ a ∧ a + 1 < w ∧ 1 ≤ b ∧ b + 1 < h := by
  intro a b hab
  simp only [blinkV, decide_eq_true_eq] at hab
  omega

theorem lifeB_blinkH (x y : Nat) : lifeB blinkH x y = blinkV x y := by
  by_cases hx : x < 5
  · by_cases hy : y < 5
    · interval_cases x <;> interval_cases y <;> decide
    · have k1 : blinkH (x - 1) y = false := by
        simp only [blinkH, decide_eq_false_iff_not]; omega
      have k2 : blinkH (x + 1) y = false := by
        simp only [blinkH, decide_eq_false_iff_not]; omega
      have k3 : blinkH x (y + 1) = false := by
        simp only [blinkH, decide_eq_false_iff_not]; omega
      have k4 : blinkH x (y - 1) = false := by
        simp only [blinkH, decide_eq_false_iff_not]; omega
      have k5 : blinkH (x + 1) (y + 1) = false := by
        simp only [blinkH, decide_eq_false_iff_not]; omega
      have k6 : blinkH (x + 1) (y - 1) = false := by
        simp only [blinkH, decide_eq_false_iff_not]; omega
      have k7 : blinkH (x - 1) (y + 1) = false := by
        simp only [blinkH, decide_eq_false_iff_not]; omega
      have k8 : blinkH (x - 1) (y - 1) = false := by
        simp only [blinkH, decide_eq_false_iff_not]; omega
      have k0 : blinkH x y = false := by
        simp only [blinkH, decide_eq_false_iff_not]; omega
      have kv : blinkV x y = false := by
        simp only [blinkV, decide_eq_false_iff_not]; omega
      simp only [lifeB]
      rw [k0, k1, k2, k3, k4, k5, k6, k7, k8, kv]
      decide
  · have k1 : blinkH (x - 1) y = false := by
      simp only [blinkH, decide_eq_false_iff_not]; omega
    have k2 : blinkH (x + 1) y = false := by
      simp only [blinkH, decide_eq_false_iff_not]; omega
    have k3 : blinkH x (y + 1) = false := by
      simp only [blinkH, decide_eq_false_iff_not]; omega
    have k4 : blinkH x (y - 1) = false := by
      simp only [blinkH, decide_eq_false_iff_not]; omega
    have k5 : blinkH (x + 1) (y + 1) = false := by
      simp only [blinkH, decide_eq_false_iff_not]; omega
    have k6 : blinkH (x + 1) (y - 1) = false := by
      simp only [blinkH, decide_eq_false_iff_not]; omega
    have k7 : blinkH (x - 1) (y + 1) = false := by
      simp only [blinkH, decide_eq_false_iff_not]; omega
    have k8 : blinkH (x - 1) (y - 1) = false := by
      simp only [blinkH, decide_eq_false_iff_not]; omega
    have k0 : blinkH x y = false := by
      simp only [blinkH, decide_eq_false_iff_not]; omega
    have kv : blinkV x y = false := by
      simp only [blinkV, decide_eq_false_iff_not]; omega
    simp only [lifeB]
    rw [k0, k1, k2, k3, k4, k5, k6, k7, k8, kv]
    decide

theorem lifeB_blinkV (x y : Nat) : lifeB blinkV x y = blinkH x y := by
  by_cases hx : x < 5
  · by_cases hy : y < 5
    · interval_cases x <;> interval_cases y <;> decide
    · have k1 : blinkV (x - 1) y = false := by
        simp only [blinkV, decide_eq_false_iff_not]; omega
      have k2 : blinkV (x + 1) y = false := by
        simp only [blinkV, decide_eq_false_iff_not]; omega
      have k3 : blinkV x (y + 1) = false := by
        simp only [blinkV, decide_eq_false_iff_not]; omega
      have k4 : blinkV x (y - 1) = false := by
        simp only [blinkV, decide_eq_false_iff_not]; omega
      have k5 : blinkV (x + 1) (y + 1) = false := by
        simp only [blinkV, decide_eq_false_iff_not]; omega
      have k6 : blinkV (x + 1) (y - 1) = false := by
        simp only [blinkV, decide_eq_false_iff_not]; omega
      have k7 : blinkV (x - 1) (y + 1) = false := by
        simp only [blinkV, decide_eq_false_iff_not]; omega
      have k8 : blinkV (x - 1) (y - 1) = false := by
        simp only [blinkV, decide_eq_false_iff_not]; omega
      have k0 : blinkV x y = false := by
        simp only [blinkV, decide_eq_false_iff_not]; omega
      have kv : blinkH x y = false := by
        simp only [blinkH, decide_eq_false_iff_not]; omega
      simp only [lifeB]
      rw [k0, k1, k2, k3, k4, k5, k6, k7, k8, kv]
      decide
  · have k1 : blinkV (x - 1) y = false := by
      simp only [blinkV, decide_eq_false_iff_not]; omega
    have k2 : blinkV (x + 1) y = false := by
      simp only [blinkV, decide_eq_false_iff_not]; omega
    have k3 : blinkV x (y + 1) = false := by
      simp only [blinkV, decide_eq_false_iff_not]; omega
    have k4 : blinkV x (y - 1) = false := by
      simp only [blinkV, decide_eq_false_iff_not]; omega
    have k5 : blinkV (x + 1) (y + 1) = false := by
      simp only [blinkV, decide_eq_false_iff_not]; omega
    have k6 : blinkV (x + 1) (y - 1) = false := by
      simp only [blinkV, decide_eq_false_iff_not]; omega
    have k7 : blinkV (x - 1) (y + 1) = false := by
      simp only [blinkV, decide_eq_false_iff_not]; omega
    have k8 : blinkV (x - 1) (y - 1) = false := by
      simp only [blinkV, decide_eq_false_iff_not]; omega
    have k0 : blinkV x y = false := by
      simp only [blinkV, decide_eq_false_iff_not]; omega
    have kv : blinkH x y = false := by
      simp only [blinkH, decide_eq_false_iff_not]; omega
    simp only [lifeB]
    rw [k0, k1, k2, k3, k4, k5, k6, k7, k8, kv]
    decide

/-! ### The 2x2 block pattern -/

/-- The 2x2 block with lower corner `(i, j)`: living cells exactly
`(i,j), (i+1,j), (i,j+1), (i+1,j+1)`. -/
def blockP (i j : Nat) : Nat → Nat → Bool :=
  fun x y => decide ((x = i ∨ x = i + 1) ∧ (y = j ∨ y = j + 1))

/-- Full evaluation of a neighbor read on the block image, including the
wrap-around reads of the source's unchecked index arithmetic: a read at
`x = -1` sees cell `(w-1, v-1)`, a read at `x = w` sees cell `(0, v+1)`,
and reads whose linear index leaves the buffer see a dead border. -/
theorem lookP_blockP (w h i j : Nat) (hw : 4 ≤ w) (hh : 4 ≤ h)
    (hi : i + 2 ≤ w) (hj : j + 2 ≤ h) (u v : Int)
    (hu1 : -1 ≤ u) (hu2 : u ≤ w) (hv1 : -1 ≤ v) (hv2 : v ≤ h) :
    lookP w h (blockP i j) u v =
      if (0 ≤ u ∧ u < w ∧ 0 ≤ v ∧ v < h ∧ (u = i ∨ u = i + 1) ∧ (v = j ∨ v = j + 1)) ∨
          (u = -1 ∧ 1 ≤ v ∧ i + 2 = w ∧ (v = j + 1 ∨ v = j + 2)) ∨
          (u = (w : Int) ∧ v + 1 < h ∧ i = 0 ∧ (v + 1 = j ∨ v + 1 = j + 1))
        then 1 else 0 := by
  have hw0 : 0 < w := by omega
  rcases (show u = -1 ∨ (0 ≤ u ∧ u < w) ∨ u = (w : Int) by omega) with huc | huc | huc
  · subst huc
    rcases (show v = -1 ∨ 0 ≤ v by omega) with hvc | hvc
    · subst hvc
      rw [lookP_top w h _ (-1) (by omega), if_neg (by omega)]
    · obtain ⟨k, rfl⟩ : ∃ k : Nat, v = (k : Int) := ⟨v.toNat, by omega⟩
      rw [lookP_left w h _ hw0 k (by omega)]
      simp only [blockP, decide_eq_true_eq, true_and, false_and, and_true, and_false,
        true_or, or_true, false_or, or_false]
      exact if_congr (by omega) rfl rfl
  · obtain ⟨a, rfl⟩ : ∃ a : Nat, u = (a : Int) := ⟨u.toNat, by omega⟩
    have haw : a < w := by omega
    rcases (show v = -1 ∨ (0 ≤ v ∧ v < h) ∨ v = (h : Int) by omega) with hvc | hvc | hvc
    · subst hvc
      rw [lookP_top w h _ a (by omega), if_neg (by omega)]
    · obtain ⟨b, rfl⟩ : ∃ b : Nat, v = (b : Int) := ⟨v.toNat, by omega⟩
      rw [lookP_in w h _ a b haw (by omega)]
      simp only [blockP, decide_eq_true_eq, true_and, false_and, and_true, and_false,
        true_or, or_true, false_or, or_false]
      exact if_congr (by omega) rfl rfl
    · subst hvc
      rw [lookP_bot w h _ a (by omega), if_neg (by omega)]
  · subst huc
    rw [lookP_right w h _ hw0 v hv1]
    simp only [blockP, decide_eq_true_eq, true_and, false_and, and_true, and_false,
      true_or, or_true, false_or, or_false]
    exact if_congr (by omega) rfl rfl

theorem ite_one_zero_cases (C : Prop) [Decidable C] (t : Nat)
    (ht : t = if C then 1 else 0) : (t = 1 ∧ C) ∨ (t = 0 ∧ ¬C) := by
  by_cases hC : C
  · exact Or.inl ⟨by rw [ht, if_pos hC], hC⟩
  · exact Or.inr ⟨by rw [ht, if_neg hC], hC⟩

/-- Pure arithmetic core of the block still-life: given the 0/1 values of
the nine reads together with their characterizations, the life rule
reproduces exactly the block membership.  Proved by a positional case
analysis that keeps every `omega` call free of disjunctive hypotheses. -/
theorem block_rule_arith (w h i j x y t0 t1 t2 t3 t4 t5 t6 t7 t8 : Nat)
    (hw : 4 ≤ w) (hh : 4 ≤ h) (hi : i + 2 ≤ w) (hj : j + 2 ≤ h)
    (hx : x < w) (hy : y < h)
    (g0 : (t0 = 1 ∧ ((x = i ∨ x = i + 1) ∧ (y = j ∨ y = j + 1))) ∨
      (t0 = 0 ∧ ¬((x = i ∨ x = i + 1) ∧ (y = j ∨ y = j + 1))))
    (g1 : (t1 = 1 ∧ ((1 ≤ x ∧ (x - 1 = i ∨ x - 1 = i + 1) ∧ (y = j ∨ y = j + 1)) ∨
        (x = 0 ∧ 1 ≤ y ∧ i + 2 = w ∧ (y = j + 1 ∨ y = j + 2)))) ∨
      (t1 = 0 ∧ ¬((1 ≤ x ∧ (x - 1 = i ∨ x - 1 = i + 1) ∧ (y = j ∨ y = j + 1)) ∨
        (x = 0 ∧ 1 ≤ y ∧ i + 2 = w ∧ (y = j + 1 ∨ y = j + 2)))))
    (g2 : (t2 = 1 ∧ ((x + 1 < w ∧ (x + 1 = i ∨ x + 1 = i + 1) ∧ (y = j ∨ y = j + 1)) ∨
        (x + 1 = w ∧ y + 1 < h ∧ i = 0 ∧ (y + 1 = j ∨ y + 1 = j + 1)))) ∨
      (t2 = 0 ∧ ¬((x + 1 < w ∧ (x + 1 = i ∨ x + 1 = i + 1) ∧ (y = j ∨ y = j + 1)) ∨
        (x + 1 = w ∧ y + 1 < h ∧ i = 0 ∧ (y + 1 = j ∨ y + 1 = j + 1)))))
    (g3 : (t3 = 1 ∧ (y + 1 < h ∧ (x = i ∨ x = i + 1) ∧ (y + 1 = j ∨ y + 1 = j + 1))) ∨
      (t3 = 0 ∧ ¬(y + 1 < h ∧ (x = i ∨ x = i + 1) ∧ (y + 1 = j ∨ y + 1 = j + 1))))
    (g4 : (t4 = 1 ∧ (1 ≤ y ∧ (x = i ∨ x = i + 1) ∧ (y - 1 = j ∨ y - 1 = j + 1))) ∨
      (t4 = 0 ∧ ¬(1 ≤ y ∧ (x = i ∨ x = i + 1) ∧ (y - 1 = j ∨ y - 1 = j + 1))))
    (g5 : (t5 = 1 ∧ ((x + 1 < w ∧ y + 1 < h ∧ (x + 1 = i ∨ x + 1 = i + 1) ∧ (y + 1 = j ∨ y + 1 = j + 1)) ∨
        (x + 1 = w ∧ y + 2 < h ∧ i = 0 ∧ (y + 2 = j ∨ y + 2 = j + 1)))) ∨
      (t5 = 0 ∧ ¬((x + 1 < w ∧ y + 1 < h ∧ (x + 1 = i ∨ x + 1 = i + 1) ∧ (y + 1 = j ∨ y + 1 = j + 1)) ∨
        (x + 1 = w ∧ y + 2 < h ∧ i = 0 ∧ (y + 2 = j ∨ y + 2 = j + 1)))))
    (g6 : (t6 = 1 ∧ ((x + 1 < w ∧ 1 ≤ y ∧ (x + 1 = i ∨ x + 1 = i + 1) ∧ (y - 1 = j ∨ y - 1 = j + 1)) ∨
        (x + 1 = w ∧ i = 0 ∧ (y = j ∨ y = j + 1)))) ∨
      (t6 = 0 ∧ ¬((x + 1 < w ∧ 1 ≤ y ∧ (x + 1 = i ∨ x + 1 = i + 1) ∧ (y - 1 = j ∨ y - 1 = j + 1)) ∨
        (x + 1 = w ∧ i = 0 ∧ (y = j ∨ y = j + 1)))))
    (g7 : (t7 = 1 ∧ ((1 ≤ x ∧ y + 1 < h ∧ (x - 1 = i ∨ x - 1 = i + 1) ∧ (y + 1 = j ∨ y + 1 = j + 1)) ∨
        (x = 0 ∧ i + 2 = w ∧ (y + 1 = j + 1 ∨ y + 1 = j + 2)))) ∨
      (t7 = 0 ∧ ¬((1 ≤ x ∧ y + 1 < h ∧ (x - 1 = i ∨ x - 1 = i + 1) ∧ (y + 1 = j ∨ y + 1 = j + 1)) ∨
        (x = 0 ∧ i + 2 = w ∧ (y + 1 = j + 1 ∨ y + 1 = j + 2)))))
    (g8 : (t8 = 1 ∧ ((1 ≤ x ∧ 1 ≤ y ∧ (x - 1 = i ∨ x - 1 = i + 1) ∧ (y - 1 = j ∨ y - 1 = j + 1)) ∨
        (x = 0 ∧ 2 ≤ y ∧ i + 2 = w ∧ (y = j + 2 ∨ y = j + 3)))) ∨
      (t8 = 0 ∧ ¬((1 ≤ x ∧ 1 ≤ y ∧ (x - 1 = i ∨ x - 1 = i + 1) ∧ (y - 1 = j ∨ y - 1 = j + 1)) ∨
        (x = 0 ∧ 2 ≤ y ∧ i + 2 = w ∧ (y = j + 2 ∨ y = j + 3))))) :
    ((¬t0 = 0 ∧ (t1 + t2 + t3 + t4 + t5 + t6 + t7 + t8 = 2 ∨
          t1 + t2 + t3 + t4 + t5 + t6 + t7 + t8 = 3)) ∨
        (t0 = 0 ∧ t1 + t2 + t3 + t4 + t5 + t6 + t7 + t8 = 3)) ↔
      ((x = i ∨ x = i + 1) ∧ (y = j ∨ y = j + 1)) := by
  rcases (show x + 2 ≤ i ∨ x + 1 = i ∨ x = i ∨ x = i + 1 ∨ x = i + 2 ∨ i + 3 ≤ x by
      clear g0 g1 g2 g3 g4 g5 g6 g7 g8; omega) with hpx | hpx | hpx | hpx | hpx | hpx
  · rcases (show y + 3 ≤ j ∨ y + 2 = j ∨ y + 1 = j ∨ y = j ∨ y = j + 1 ∨ y = j + 2 ∨ y = j + 3 ∨ j + 4 ≤ y by
        clear g0 g1 g2 g3 g4 g5 g6 g7 g8; omega) with hpy | hpy | hpy | hpy | hpy | hpy | hpy | hpy
    · -- plain leaf
      have e0 : t0 = 0 := by
        clear g1 g2 g3 g4 g5 g6 g7 g8
        omega
      have e1 : t1 = 0 := by
        clear g0 g2 g3 g4 g5 g6 g7 g8
        omega
      have e2 : t2 = 0 := by
        clear g0 g1 g3 g4 g5 g6 g7 g8
        omega
      have e3 : t3 = 0 := by
        clear g0 g1 g2 g4 g5 g6 g7 g8
        omega
      have e4 : t4 = 0 := by
        clear g0 g1 g2 g3 g5 g6 g7 g8
        omega
      have e5 : t5 = 0 := by
        clear g0 g1 g2 g3 g4 g6 g7 g8
        omega
      have e6 : t6 = 0 := by
        clear g0 g1 g2 g3 g4 g5 g7 g8
        omega
      have e7 : t7 = 0 := by
        clear g0 g1 g2 g3 g4 g5 g6 g8
        omega
      have e8 : t8 = 0 := by
        clear g0 g1 g2 g3 g4 g5 g6 g7
        omega
      clear g0 g1 g2 g3 g4 g5 g6 g7 g8
      omega
    · -- plain leaf
      have e0 : t0 = 0 := by
        clear g1 g2 g3 g4 g5 g6 g7 g8
        omega
      have e1 : t1 = 0 := by
        clear g0 g2 g3 g4 g5 g6 g7 g8
        omega
      have e2 : t2 = 0 := by
        clear g0 g1 g3 g4 g5 g6 g7 g8
        omega
      have e3 : t3 = 0 := by
        clear g0 g1 g2 g4 g5 g6 g7 g8
        omega
      have e4 : t4 = 0 := by
        clear g0 g1 g2 g3 g5 g6 g7 g8
        omega
      have e5 : t5 = 0 := by
        clear g0 g1 g2 g3 g4 g6 g7 g8
        omega
      have e6 : t6 = 0 := by
        clear g0 g1 g2 g3 g4 g5 g7 g8
        omega
      have e7 : t7 = 0 := by
        clear g0 g1 g2 g3 g4 g5 g6 g8
        omega
      have e8 : t8 = 0 := by
        clear g0 g1 g2 g3 g4 g5 g6 g7
        omega
      clear g0 g1 g2 g3 g4 g5 g6 g7 g8
      omega
    · -- plain leaf
      have e0 : t0 = 0 := by
        clear g1 g2 g3 g4 g5 g6 g7 g8
        omega
      have e1 : t1 = 0 := by
        clear g0 g2 g3 g4 g5 g6 g7 g8
        omega
      have e2 : t2 = 0 := by
        clear g0 g1 g3 g4 g5 g6 g7 g8
        omega
      have e3 : t3 = 0 := by
        clear g0 g1 g2 g4 g5 g6 g7 g8
        omega
      have e4 : t4 = 0 := by
        clear g0 g1 g2 g3 g5 g6 g7 g8
        omega
      have e5 : t5 = 0 := by
        clear g0 g1 g2 g3 g4 g6 g7 g8
        omega
      have e6 : t6 = 0 := by
        clear g0 g1 g2 g3 g4 g5 g7 g8
        omega
      have e7 : t7 = 0 := by
        clear g0 g1 g2 g3 g4 g5 g6 g8
        omega
      have e8 : t8 = 0 := by
        clear g0 g1 g2 g3 g4 g5 g6 g7
        omega
      clear g0 g1 g2 g3 g4 g5 g6 g7 g8
      omega
    · by_cases hL : x = 0 ∧ i + 2 = w
      · -- left wrap active
        have e0 : t0 = 0 := by
          clear g1 g2 g3 g4 g5 g6 g7 g8
          omega
        have e1 : t1 = 0 := by
          clear g0 g2 g3 g4 g5 g6 g7 g8
          omega
        have e2 : t2 = 0 := by
          clear g0 g1 g3 g4 g5 g6 g7 g8
          omega
        have e3 : t3 = 0 := by
          clear g0 g1 g2 g4 g5 g6 g7 g8
          omega
        have e4 : t4 = 0 := by
          clear g0 g1 g2 g3 g5 g6 g7 g8
          omega
        have e5 : t5 = 0 := by
          clear g0 g1 g2 g3 g4 g6 g7 g8
          omega
        have e6 : t6 = 0 := by
          clear g0 g1 g2 g3 g4 g5 g7 g8
          omega
        have e7 : t7 = 1 := by
          clear g0 g1 g2 g3 g4 g5 g6 g8
          omega
        have e8 : t8 = 0 := by
          clear g0 g1 g2 g3 g4 g5 g6 g7
          omega
        clear g0 g1 g2 g3 g4 g5 g6 g7 g8
        omega
      · -- left wrap inactive
        have e0 : t0 = 0 := by
          clear g1 g2 g3 g4 g5 g6 g7 g8
          omega
        have e1 : t1 = 0 := by
          clear g0 g2 g3 g4 g5 g6 g7 g8
          omega
        have e2 : t2 = 0 := by
          clear g0 g1 g3 g4 g5 g6 g7 g8
          omega
        have e3 : t3 = 0 := by
          clear g0 g1 g2 g4 g5 g6 g7 g8
          omega
        have e4 : t4 = 0 := by
          clear g0 g1 g2 g3 g5 g6 g7 g8
          omega
        have e5 : t5 = 0 := by
          clear g0 g1 g2 g3 g4 g6 g7 g8
          omega
        have e6 : t6 = 0 := by
          clear g0 g1 g2 g3 g4 g5 g7 g8
          omega
        have e7 : t7 = 0 := by
          clear g0 g1 g2 g3 g4 g5 g6 g8
          omega
        have e8 : t8 = 0 := by
          clear g0 g1 g2 g3 g4 g5 g6 g7
          omega
        clear g0 g1 g2 g3 g4 g5 g6 g7 g8
        omega
    · by_cases hL : x = 0 ∧ i + 2 = w
      · -- left wrap active
        have e0 : t0 = 0 := by
          clear g1 g2 g3 g4 g5 g6 g7 g8
          omega
        have e1 : t1 = 1 := by
          clear g0 g2 g3 g4 g5 g6 g7 g8
          omega
        have e2 : t2 = 0 := by
          clear g0 g1 g3 g4 g5 g6 g7 g8
          omega
        have e3 : t3 = 0 := by
          clear g0 g1 g2 g4 g5 g6 g7 g8
          omega
        have e4 : t4 = 0 := by
          clear g0 g1 g2 g3 g5 g6 g7 g8
          omega
        have e5 : t5 = 0 := by
          clear g0 g1 g2 g3 g4 g6 g7 g8
          omega
        have e6 : t6 = 0 := by
          clear g0 g1 g2 g3 g4 g5 g7 g8
          omega
        have e7 : t7 = 1 := by
          clear g0 g1 g2 g3 g4 g5 g6 g8
          omega
        have e8 : t8 = 0 := by
          clear g0 g1 g2 g3 g4 g5 g6 g7
          omega
        clear g0 g1 g2 g3 g4 g5 g6 g7 g8
        omega
      · -- left wrap inactive
        have e0 : t0 = 0 := by
          clear g1 g2 g3 g4 g5 g6 g7 g8
          omega
        have e1 : t1 = 0 := by
          clear g0 g2 g3 g4 g5 g6 g7 g8
          omega
        have e2 : t2 = 0 := by
          clear g0 g1 g3 g4 g5 g6 g7 g8
          omega
        have e3 : t3 = 0 := by
          clear g0 g1 g2 g4 g5 g6 g7 g8
          omega
        have e4 : t4 = 0 := by
          clear g0 g1 g2 g3 g5 g6 g7 g8
          omega
        have e5 : t5 = 0 := by
          clear g0 g1 g2 g3 g4 g6 g7 g8
          omega
        have e6 : t6 = 0 := by
          clear g0 g1 g2 g3 g4 g5 g7 g8
          omega
        have e7 : t7 = 0 := by
          clear g0 g1 g2 g3 g4 g5 g6 g8
          omega
        have e8 : t8 = 0 := by
          clear g0 g1 g2 g3 g4 g5 g6 g7
          omega
        clear g0 g1 g2 g3 g4 g5 g6 g7 g8
        omega
    · by_cases hL : x = 0 ∧ i + 2 = w
      · -- left wrap active
        have e0 : t0 = 0 := by
          clear g1 g2 g3 g4 g5 g6 g7 g8
          omega
        have e1 : t1 = 1 := by
          clear g0 g2 g3 g4 g5 g6 g7 g8
          omega
        have e2 : t2 = 0 := by
          clear g0 g1 g3 g4 g5 g6 g7 g8
          omega
        have e3 : t3 = 0 := by
          clear g0 g1 g2 g4 g5 g6 g7 g8
          omega
        have e4 : t4 = 0 := by
          clear g0 g1 g2 g3 g5 g6 g7 g8
          omega
        have e5 : t5 = 0 := by
          clear g0 g1 g2 g3 g4 g6 g7 g8
          omega
        have e6 : t6 = 0 := by
          clear g0 g1 g2 g3 g4 g5 g7 g8
          omega
        have e7 : t7 = 0 := by
          clear g0 g1 g2 g3 g4 g5 g6 g8
          omega
        have e8 : t8 = 1 := by
          clear g0 g1 g2 g3 g4 g5 g6 g7
          omega
        clear g0 g1 g2 g3 g4 g5 g6 g7 g8
        omega
      · -- left wrap inactive
        have e0 : t0 = 0 := by
          clear g1 g2 g3 g4 g5 g6 g7 g8
          omega
        have e1 : t1 = 0 := by
          clear g0 g2 g3 g4 g5 g6 g7 g8
          omega
        have e2 : t2 = 0 := by
          clear g0 g1 g3 g4 g5 g6 g7 g8
          omega
        have e3 : t3 = 0 := by
          clear g0 g1 g2 g4 g5 g6 g7 g8
          omega
        have e4 : t4 = 0 := by
          clear g0 g1 g2 g3 g5 g6 g7 g8
          omega
        have e5 : t5 = 0 := by
          clear g0 g1 g2 g3 g4 g6 g7 g8
          omega
        have e6 : t6 = 0 := by
          clear g0 g1 g2 g3 g4 g5 g7 g8
          omega
        have e7 : t7 = 0 := by
          clear g0 g1 g2 g3 g4 g5 g6 g8
          omega
        have e8 : t8 = 0 := by
          clear g0 g1 g2 g3 g4 g5 g6 g7
          omega
        clear g0 g1 g2 g3 g4 g5 g6 g7 g8
        omega
    · by_cases hL : x = 0 ∧ i + 2 = w
      · -- left wrap active
        have e0 : t0 = 0 := by
          clear g1 g2 g3 g4 g5 g6 g7 g8
          omega
        have e1 : t1 = 0 := by
          clear g0 g2 g3 g4 g5 g6 g7 g8
          omega
        have e2 : t2 = 0 := by
          clear g0 g1 g3 g4 g5 g6 g7 g8
          omega
        have e3 : t3 = 0 := by
          clear g0 g1 g2 g4 g5 g6 g7 g8
          omega
        have e4 : t4 = 0 := by
          clear g0 g1 g2 g3 g5 g6 g7 g8
          omega
        have e5 : t5 = 0 := by
          clear g0 g1 g2 g3 g4 g6 g7 g8
          omega
        have e6 : t6 = 0 := by
          clear g0 g1 g2 g3 g4 g5 g7 g8
          omega
        have e7 : t7 = 0 := by
          clear g0 g1 g2 g3 g4 g5 g6 g8
          omega
        have e8 : t8 = 1 := by
          clear g0 g1 g2 g3 g4 g5 g6 g7
          omega
        clear g0 g1 g2 g3 g4 g5 g6 g7 g8
        omega
      · -- left wrap inactive
        have e0 : t0 = 0 := by
          clear g1 g2 g3 g4 g5 g6 g7 g8
          omega
        have e1 : t1 = 0 := by
          clear g0 g2 g3 g4 g5 g6 g7 g8
          omega
        have e2 : t2 = 0 := by
          clear g0 g1 g3 g4 g5 g6 g7 g8
          omega
        have e3 : t3 = 0 := by
          clear g0 g1 g2 g4 g5 g6 g7 g8
          omega
        have e4 : t4 = 0 := by
          clear g0 g1 g2 g3 g5 g6 g7 g8
          omega
        have e5 : t5 = 0 := by
          clear g0 g1 g2 g3 g4 g6 g7 g8
          omega
        have e6 : t6 = 0 := by
          clear g0 g1 g2 g3 g4 g5 g7 g8
          omega
        have e7 : t7 = 0 := by
          clear g0 g1 g2 g3 g4 g5 g6 g8
          omega
        have e8 : t8 = 0 := by
          clear g0 g1 g2 g3 g4 g5 g6 g7
          omega
        clear g0 g1 g2 g3 g4 g5 g6 g7 g8
        omega
    · -- plain leaf
      have e0 : t0 = 0 := by
        clear g1 g2 g3 g4 g5 g6 g7 g8
        omega
      have e1 : t1 = 0 := by
        clear g0 g2 g3 g4 g5 g6 g7 g8
        omega
      have e2 : t2 = 0 := by
        clear g0 g1 g3 g4 g5 g6 g7 g8
        omega
      have e3 : t3 = 0 := by
        clear g0 g1 g2 g4 g5 g6 g7 g8
        omega
      have e4 : t4 = 0 := by
        clear g0 g1 g2 g3 g5 g6 g7 g8
        omega
      have e5 : t5 = 0 := by
        clear g0 g1 g2 g3 g4 g6 g7 g8
        omega
      have e6 : t6 = 0 := by
        clear g0 g1 g2 g3 g4 g5 g7 g8
        omega
      have e7 : t7 = 0 := by
        clear g0 g1 g2 g3 g4 g5 g6 g8
        omega
      have e8 : t8 = 0 := by
        clear g0 g1 g2 g3 g4 g5 g6 g7
        omega
      clear g0 g1 g2 g3 g4 g5 g6 g7 g8
      omega
  · rcases (show y + 3 ≤ j ∨ y + 2 = j ∨ y + 1 = j ∨ y = j ∨ y = j + 1 ∨ y = j + 2 ∨ y = j + 3 ∨ j + 4 ≤ y by
        clear g0 g1 g2 g3 g4 g5 g6 g7 g8; omega) with hpy | hpy | hpy | hpy | hpy | hpy | hpy | hpy
    · -- plain leaf
      have e0 : t0 = 0 := by
        clear g1 g2 g3 g4 g5 g6 g7 g8
        omega
      have e1 : t1 = 0 := by
        clear g0 g2 g3 g4 g5 g6 g7 g8
        omega
      have e2 : t2 = 0 := by
        clear g0 g1 g3 g4 g5 g6 g7 g8
        omega
      have e3 : t3 = 0 := by
        clear g0 g1 g2 g4 g5 g6 g7 g8
        omega
      have e4 : t4 = 0 := by
        clear g0 g1 g2 g3 g5 g6 g7 g8
        omega
      have e5 : t5 = 0 := by
        clear g0 g1 g2 g3 g4 g6 g7 g8
        omega
      have e6 : t6 = 0 := by
        clear g0 g1 g2 g3 g4 g5 g7 g8
        omega
      have e7 : t7 = 0 := by
        clear g0 g1 g2 g3 g4 g5 g6 g8
        omega
      have e8 : t8 = 0 := by
        clear g0 g1 g2 g3 g4 g5 g6 g7
        omega
      clear g0 g1 g2 g3 g4 g5 g6 g7 g8
      omega
    · -- plain leaf
      have e0 : t0 = 0 := by
        clear g1 g2 g3 g4 g5 g6 g7 g8
        omega
      have e1 : t1 = 0 := by
        clear g0 g2 g3 g4 g5 g6 g7 g8
        omega
      have e2 : t2 = 0 := by
        clear g0 g1 g3 g4 g5 g6 g7 g8
        omega
      have e3 : t3 = 0 := by
        clear g0 g1 g2 g4 g5 g6 g7 g8
        omega
      have e4 : t4 = 0 := by
        clear g0 g1 g2 g3 g5 g6 g7 g8
        omega
      have e5 : t5 = 0 := by
        clear g0 g1 g2 g3 g4 g6 g7 g8
        omega
      have e6 : t6 = 0 := by
        clear g0 g1 g2 g3 g4 g5 g7 g8
        omega
      have e7 : t7 = 0 := by
        clear g0 g1 g2 g3 g4 g5 g6 g8
        omega
      have e8 : t8 = 0 := by
        clear g0 g1 g2 g3 g4 g5 g6 g7
        omega
      clear g0 g1 g2 g3 g4 g5 g6 g7 g8
      omega
    · -- plain leaf
      have e0 : t0 = 0 := by
        clear g1 g2 g3 g4 g5 g6 g7 g8
        omega
      have e1 : t1 = 0 := by
        clear g0 g2 g3 g4 g5 g6 g7 g8
        omega
      have e2 : t2 = 0 := by
        clear g0 g1 g3 g4 g5 g6 g7 g8
        omega
      have e3 : t3 = 0 := by
        clear g0 g1 g2 g4 g5 g6 g7 g8
        omega
      have e4 : t4 = 0 := by
        clear g0 g1 g2 g3 g5 g6 g7 g8
        omega
      have e5 : t5 = 1 := by
        clear g0 g1 g2 g3 g4 g6 g7 g8
        omega
      have e6 : t6 = 0 := by
        clear g0 g1 g2 g3 g4 g5 g7 g8
        omega
      have e7 : t7 = 0 := by
        clear g0 g1 g2 g3 g4 g5 g6 g8
        omega
      have e8 : t8 = 0 := by
        clear g0 g1 g2 g3 g4 g5 g6 g7
        omega
      clear g0 g1 g2 g3 g4 g5 g6 g7 g8
      omega
    · -- plain leaf
      have e0 : t0 = 0 := by
        clear g1 g2 g3 g4 g5 g6 g7 g8
        omega
      have e1 : t1 = 0 := by
        clear g0 g2 g3 g4 g5 g6 g7 g8
        omega
      have e2 : t2 = 1 := by
        clear g0 g1 g3 g4 g5 g6 g7 g8
        omega
      have e3 : t3 = 0 := by
        clear g0 g1 g2 g4 g5 g6 g7 g8
        omega
      have e4 : t4 = 0 := by
        clear g0 g1 g2 g3 g5 g6 g7 g8
        omega
      have e5 : t5 = 1 := by
        clear g0 g1 g2 g3 g4 g6 g7 g8
        omega
      have e6 : t6 = 0 := by
        clear g0 g1 g2 g3 g4 g5 g7 g8
        omega
      have e7 : t7 = 0 := by
        clear g0 g1 g2 g3 g4 g5 g6 g8
        omega
      have e8 : t8 = 0 := by
        clear g0 g1 g2 g3 g4 g5 g6 g7
        omega
      clear g0 g1 g2 g3 g4 g5 g6 g7 g8
      omega
    · -- plain leaf
      have e0 : t0 = 0 := by
        clear g1 g2 g3 g4 g5 g6 g7 g8
        omega
      have e1 : t1 = 0 := by
        clear g0 g2 g3 g4 g5 g6 g7 g8
        omega
      have e2 : t2 = 1 := by
        clear g0 g1 g3 g4 g5 g6 g7 g8
        omega
      have e3 : t3 = 0 := by
        clear g0 g1 g2 g4 g5 g6 g7 g8
        omega
      have e4 : t4 = 0 := by
        clear g0 g1 g2 g3 g5 g6 g7 g8
        omega
      have e5 : t5 = 0 := by
        clear g0 g1 g2 g3 g4 g6 g7 g8
        omega
      have e6 : t6 = 1 := by
        clear g0 g1 g2 g3 g4 g5 g7 g8
        omega
      have e7 : t7 = 0 := by
        clear g0 g1 g2 g3 g4 g5 g6 g8
        omega
      have e8 : t8 = 0 := by
        clear g0 g1 g2 g3 g4 g5 g6 g7
        omega
      clear g0 g1 g2 g3 g4 g5 g6 g7 g8
      omega
    · -- plain leaf
      have e0 : t0 = 0 := by
        clear g1 g2 g3 g4 g5 g6 g7 g8
        omega
      have e1 : t1 = 0 := by
        clear g0 g2 g3 g4 g5 g6 g7 g8
        omega
      have e2 : t2 = 0 := by
        clear g0 g1 g3 g4 g5 g6 g7 g8
        omega
      have e3 : t3 = 0 := by
        clear g0 g1 g2 g4 g5 g6 g7 g8
        omega
      have e4 : t4 = 0 := by
        clear g0 g1 g2 g3 g5 g6 g7 g8
        omega
      have e5 : t5 = 0 := by
        clear g0 g1 g2 g3 g4 g6 g7 g8
        omega
      have e6 : t6 = 1 := by
        clear g0 g1 g2 g3 g4 g5 g7 g8
        omega
      have e7 : t7 = 0 := by
        clear g0 g1 g2 g3 g4 g5 g6 g8
        omega
      have e8 : t8 = 0 := by
        clear g0 g1 g2 g3 g4 g5 g6 g7
        omega
      clear g0 g1 g2 g3 g4 g5 g6 g7 g8
      omega
    · -- plain leaf
      have e0 : t0 = 0 := by
        clear g1 g2 g3 g4 g5 g6 g7 g8
        omega
      have e1 : t1 = 0 := by
        clear g0 g2 g3 g4 g5 g6 g7 g8
        omega
      have e2 : t2 = 0 := by
        clear g0 g1 g3 g4 g5 g6 g7 g8
        omega
      have e3 : t3 = 0 := by
        clear g0 g1 g2 g4 g5 g6 g7 g8
        omega
      have e4 : t4 = 0 := by
        clear g0 g1 g2 g3 g5 g6 g7 g8
        omega
      have e5 : t5 = 0 := by
        clear g0 g1 g2 g3 g4 g6 g7 g8
        omega
      have e6 : t6 = 0 := by
        clear g0 g1 g2 g3 g4 g5 g7 g8
        omega
      have e7 : t7 = 0 := by
        clear g0 g1 g2 g3 g4 g5 g6 g8
        omega
      have e8 : t8 = 0 := by
        clear g0 g1 g2 g3 g4 g5 g6 g7
        omega
      clear g0 g1 g2 g3 g4 g5 g6 g7 g8
      omega
    · -- plain leaf
      have e0 : t0 = 0 := by
        clear g1 g2 g3 g4 g5 g6 g7 g8
        omega
      have e1 : t1 = 0 := by
        clear g0 g2 g3 g4 g5 g6 g7 g8
        omega
      have e2 : t2 = 0 := by
        clear g0 g1 g3 g4 g5 g6 g7 g8
        omega
      have e3 : t3 = 0 := by
        clear g0 g1 g2 g4 g5 g6 g7 g8
        omega
      have e4 : t4 = 0 := by
        clear g0 g1 g2 g3 g5 g6 g7 g8
        omega
      have e5 : t5 = 0 := by
        clear g0 g1 g2 g3 g4 g6 g7 g8
        omega
      have e6 : t6 = 0 := by
        clear g0 g1 g2 g3 g4 g5 g7 g8
        omega
      have e7 : t7 = 0 := by
        clear g0 g1 g2 g3 g4 g5 g6 g8
        omega
      have e8 : t8 = 0 := by
        clear g0 g1 g2 g3 g4 g5 g6 g7
        omega
      clear g0 g1 g2 g3 g4 g5 g6 g7 g8
      omega
  · rcases (show y + 3 ≤ j ∨ y + 2 = j ∨ y + 1 = j ∨ y = j ∨ y = j + 1 ∨ y = j + 2 ∨ y = j + 3 ∨ j + 4 ≤ y by
        clear g0 g1 g2 g3 g4 g5 g6 g7 g8; omega) with hpy | hpy | hpy | hpy | hpy | hpy | hpy | hpy
    · -- plain leaf
      have e0 : t0 = 0 := by
        clear g1 g2 g3 g4 g5 g6 g7 g8
        omega
      have e1 : t1 = 0 := by
        clear g0 g2 g3 g4 g5 g6 g7 g8
        omega
      have e2 : t2 = 0 := by
        clear g0 g1 g3 g4 g5 g6 g7 g8
        omega
      have e3 : t3 = 0 := by
        clear g0 g1 g2 g4 g5 g6 g7 g8
        omega
      have e4 : t4 = 0 := by
        clear g0 g1 g2 g3 g5 g6 g7 g8
        omega
      have e5 : t5 = 0 := by
        clear g0 g1 g2 g3 g4 g6 g7 g8
        omega
      have e6 : t6 = 0 := by
        clear g0 g1 g2 g3 g4 g5 g7 g8
        omega
      have e7 : t7 = 0 := by
        clear g0 g1 g2 g3 g4 g5 g6 g8
        omega
      have e8 : t8 = 0 := by
        clear g0 g1 g2 g3 g4 g5 g6 g7
        omega
      clear g0 g1 g2 g3 g4 g5 g6 g7 g8
      omega
    · -- plain leaf
      have e0 : t0 = 0 := by
        clear g1 g2 g3 g4 g5 g6 g7 g8
        omega
      have e1 : t1 = 0 := by
        clear g0 g2 g3 g4 g5 g6 g7 g8
        omega
      have e2 : t2 = 0 := by
        clear g0 g1 g3 g4 g5 g6 g7 g8
        omega
      have e3 : t3 = 0 := by
        clear g0 g1 g2 g4 g5 g6 g7 g8
        omega
      have e4 : t4 = 0 := by
        clear g0 g1 g2 g3 g5 g6 g7 g8
        omega
      have e5 : t5 = 0 := by
        clear g0 g1 g2 g3 g4 g6 g7 g8
        omega
      have e6 : t6 = 0 := by
        clear g0 g1 g2 g3 g4 g5 g7 g8
        omega
      have e7 : t7 = 0 := by
        clear g0 g1 g2 g3 g4 g5 g6 g8
        omega
      have e8 : t8 = 0 := by
        clear g0 g1 g2 g3 g4 g5 g6 g7
        omega
      clear g0 g1 g2 g3 g4 g5 g6 g7 g8
      omega
    · -- plain leaf
      have e0 : t0 = 0 := by
        clear g1 g2 g3 g4 g5 g6 g7 g8
        omega
      have e1 : t1 = 0 := by
        clear g0 g2 g3 g4 g5 g6 g7 g8
        omega
      have e2 : t2 = 0 := by
        clear g0 g1 g3 g4 g5 g6 g7 g8
        omega
      have e3 : t3 = 1 := by
        clear g0 g1 g2 g4 g5 g6 g7 g8
        omega
      have e4 : t4 = 0 := by
        clear g0 g1 g2 g3 g5 g6 g7 g8
        omega
      have e5 : t5 = 1 := by
        clear g0 g1 g2 g3 g4 g6 g7 g8
        omega
      have e6 : t6 = 0 := by
        clear g0 g1 g2 g3 g4 g5 g7 g8
        omega
      have e7 : t7 = 0 := by
        clear g0 g1 g2 g3 g4 g5 g6 g8
        omega
      have e8 : t8 = 0 := by
        clear g0 g1 g2 g3 g4 g5 g6 g7
        omega
      clear g0 g1 g2 g3 g4 g5 g6 g7 g8
      omega
    · -- plain leaf
      have e0 : t0 = 1 := by
        clear g1 g2 g3 g4 g5 g6 g7 g8
        omega
      have e1 : t1 = 0 := by
        clear g0 g2 g3 g4 g5 g6 g7 g8
        omega
      have e2 : t2 = 1 := by
        clear g0 g1 g3 g4 g5 g6 g7 g8
        omega
      have e3 : t3 = 1 := by
        clear g0 g1 g2 g4 g5 g6 g7 g8
        omega
      have e4 : t4 = 0 := by
        clear g0 g1 g2 g3 g5 g6 g7 g8
        omega
      have e5 : t5 = 1 := by
        clear g0 g1 g2 g3 g4 g6 g7 g8
        omega
      have e6 : t6 = 0 := by
        clear g0 g1 g2 g3 g4 g5 g7 g8
        omega
      have e7 : t7 = 0 := by
        clear g0 g1 g2 g3 g4 g5 g6 g8
        omega
      have e8 : t8 = 0 := by
        clear g0 g1 g2 g3 g4 g5 g6 g7
        omega
      clear g0 g1 g2 g3 g4 g5 g6 g7 g8
      omega
    · -- plain leaf
      have e0 : t0 = 1 := by
        clear g1 g2 g3 g4 g5 g6 g7 g8
        omega
      have e1 : t1 = 0 := by
        clear g0 g2 g3 g4 g5 g6 g7 g8
        omega
      have e2 : t2 = 1 := by
        clear g0 g1 g3 g4 g5 g6 g7 g8
        omega
      have e3 : t3 = 0 := by
        clear g0 g1 g2 g4 g5 g6 g7 g8
        omega
      have e4 : t4 = 1 := by
        clear g0 g1 g2 g3 g5 g6 g7 g8
        omega
      have e5 : t5 = 0 := by
        clear g0 g1 g2 g3 g4 g6 g7 g8
        omega
      have e6 : t6 = 1 := by
        clear g0 g1 g2 g3 g4 g5 g7 g8
        omega
      have e7 : t7 = 0 := by
        clear g0 g1 g2 g3 g4 g5 g6 g8
        omega
      have e8 : t8 = 0 := by
        clear g0 g1 g2 g3 g4 g5 g6 g7
        omega
      clear g0 g1 g2 g3 g4 g5 g6 g7 g8
      omega
    · -- plain leaf
      have e0 : t0 = 0 := by
        clear g1 g2 g3 g4 g5 g6 g7 g8
        omega
      have e1 : t1 = 0 := by
        clear g0 g2 g3 g4 g5 g6 g7 g8
        omega
      have e2 : t2 = 0 := by
        clear g0 g1 g3 g4 g5 g6 g7 g8
        omega
      have e3 : t3 = 0 := by
        clear g0 g1 g2 g4 g5 g6 g7 g8
        omega
      have e4 : t4 = 1 := by
        clear g0 g1 g2 g3 g5 g6 g7 g8
        omega
      have e5 : t5 = 0 := by
        clear g0 g1 g2 g3 g4 g6 g7 g8
        omega
      have e6 : t6 = 1 := by
        clear g0 g1 g2 g3 g4 g5 g7 g8
        omega
      have e7 : t7 = 0 := by
        clear g0 g1 g2 g3 g4 g5 g6 g8
        omega
      have e8 : t8 = 0 := by
        clear g0 g1 g2 g3 g4 g5 g6 g7
        omega
      clear g0 g1 g2 g3 g4 g5 g6 g7 g8
      omega
    · -- plain leaf
      have e0 : t0 = 0 := by
        clear g1 g2 g3 g4 g5 g6 g7 g8
        omega
      have e1 : t1 = 0 := by
        clear g0 g2 g3 g4 g5 g6 g7 g8
        omega
      have e2 : t2 = 0 := by
        clear g0 g1 g3 g4 g5 g6 g7 g8
        omega
      have e3 : t3 = 0 := by
        clear g0 g1 g2 g4 g5 g6 g7 g8
        omega
      have e4 : t4 = 0 := by
        clear g0 g1 g2 g3 g5 g6 g7 g8
        omega
      have e5 : t5 = 0 := by
        clear g0 g1 g2 g3 g4 g6 g7 g8
        omega
      have e6 : t6 = 0 := by
        clear g0 g1 g2 g3 g4 g5 g7 g8
        omega
      have e7 : t7 = 0 := by
        clear g0 g1 g2 g3 g4 g5 g6 g8
        omega
      have e8 : t8 = 0 := by
        clear g0 g1 g2 g3 g4 g5 g6 g7
        omega
      clear g0 g1 g2 g3 g4 g5 g6 g7 g8
      omega
    · -- plain leaf
      have e0 : t0 = 0 := by
        clear g1 g2 g3 g4 g5 g6 g7 g8
        omega
      have e1 : t1 = 0 := by
        clear g0 g2 g3 g4 g5 g6 g7 g8
        omega
      have e2 : t2 = 0 := by
        clear g0 g1 g3 g4 g5 g6 g7 g8
        omega
      have e3 : t3 = 0 := by
        clear g0 g1 g2 g4 g5 g6 g7 g8
        omega
      have e4 : t4 = 0 := by
        clear g0 g1 g2 g3 g5 g6 g7 g8
        omega
      have e5 : t5 = 0 := by
        clear g0 g1 g2 g3 g4 g6 g7 g8
        omega
      have e6 : t6 = 0 := by
        clear g0 g1 g2 g3 g4 g5 g7 g8
        omega
      have e7 : t7 = 0 := by
        clear g0 g1 g2 g3 g4 g5 g6 g8
        omega
      have e8 : t8 = 0 := by
        clear g0 g1 g2 g3 g4 g5 g6 g7
        omega
      clear g0 g1 g2 g3 g4 g5 g6 g7 g8
      omega
  · rcases (show y + 3 ≤ j ∨ y + 2 = j ∨ y + 1 = j ∨ y = j ∨ y = j + 1 ∨ y = j + 2 ∨ y = j + 3 ∨ j + 4 ≤ y by
        clear g0 g1 g2 g3 g4 g5 g6 g7 g8; omega) with hpy | hpy | hpy | hpy | hpy | hpy | hpy | hpy
    · -- plain leaf
      have e0 : t0 = 0 := by
        clear g1 g2 g3 g4 g5 g6 g7 g8
        omega
      have e1 : t1 = 0 := by
        clear g0 g2 g3 g4 g5 g6 g7 g8
        omega
      have e2 : t2 = 0 := by
        clear g0 g1 g3 g4 g5 g6 g7 g8
        omega
      have e3 : t3 = 0 := by
        clear g0 g1 g2 g4 g5 g6 g7 g8
        omega
      have e4 : t4 = 0 := by
        clear g0 g1 g2 g3 g5 g6 g7 g8
        omega
      have e5 : t5 = 0 := by
        clear g0 g1 g2 g3 g4 g6 g7 g8
        omega
      have e6 : t6 = 0 := by
        clear g0 g1 g2 g3 g4 g5 g7 g8
        omega
      have e7 : t7 = 0 := by
        clear g0 g1 g2 g3 g4 g5 g6 g8
        omega
      have e8 : t8 = 0 := by
        clear g0 g1 g2 g3 g4 g5 g6 g7
        omega
      clear g0 g1 g2 g3 g4 g5 g6 g7 g8
      omega
    · -- plain leaf
      have e0 : t0 = 0 := by
        clear g1 g2 g3 g4 g5 g6 g7 g8
        omega
      have e1 : t1 = 0 := by
        clear g0 g2 g3 g4 g5 g6 g7 g8
        omega
      have e2 : t2 = 0 := by
        clear g0 g1 g3 g4 g5 g6 g7 g8
        omega
      have e3 : t3 = 0 := by
        clear g0 g1 g2 g4 g5 g6 g7 g8
        omega
      have e4 : t4 = 0 := by
        clear g0 g1 g2 g3 g5 g6 g7 g8
        omega
      have e5 : t5 = 0 := by
        clear g0 g1 g2 g3 g4 g6 g7 g8
        omega
      have e6 : t6 = 0 := by
        clear g0 g1 g2 g3 g4 g5 g7 g8
        omega
      have e7 : t7 = 0 := by
        clear g0 g1 g2 g3 g4 g5 g6 g8
        omega
      have e8 : t8 = 0 := by
        clear g0 g1 g2 g3 g4 g5 g6 g7
        omega
      clear g0 g1 g2 g3 g4 g5 g6 g7 g8
      omega
    · -- plain leaf
      have e0 : t0 = 0 := by
        clear g1 g2 g3 g4 g5 g6 g7 g8
        omega
      have e1 : t1 = 0 := by
        clear g0 g2 g3 g4 g5 g6 g7 g8
        omega
      have e2 : t2 = 0 := by
        clear g0 g1 g3 g4 g5 g6 g7 g8
        omega
      have e3 : t3 = 1 := by
        clear g0 g1 g2 g4 g5 g6 g7 g8
        omega
      have e4 : t4 = 0 := by
        clear g0 g1 g2 g3 g5 g6 g7 g8
        omega
      have e5 : t5 = 0 := by
        clear g0 g1 g2 g3 g4 g6 g7 g8
        omega
      have e6 : t6 = 0 := by
        clear g0 g1 g2 g3 g4 g5 g7 g8
        omega
      have e7 : t7 = 1 := by
        clear g0 g1 g2 g3 g4 g5 g6 g8
        omega
      have e8 : t8 = 0 := by
        clear g0 g1 g2 g3 g4 g5 g6 g7
        omega
      clear g0 g1 g2 g3 g4 g5 g6 g7 g8
      omega
    · -- plain leaf
      have e0 : t0 = 1 := by
        clear g1 g2 g3 g4 g5 g6 g7 g8
        omega
      have e1 : t1 = 1 := by
        clear g0 g2 g3 g4 g5 g6 g7 g8
        omega
      have e2 : t2 = 0 := by
        clear g0 g1 g3 g4 g5 g6 g7 g8
        omega
      have e3 : t3 = 1 := by
        clear g0 g1 g2 g4 g5 g6 g7 g8
        omega
      have e4 : t4 = 0 := by
        clear g0 g1 g2 g3 g5 g6 g7 g8
        omega
      have e5 : t5 = 0 := by
        clear g0 g1 g2 g3 g4 g6 g7 g8
        omega
      have e6 : t6 = 0 := by
        clear g0 g1 g2 g3 g4 g5 g7 g8
        omega
      have e7 : t7 = 1 := by
        clear g0 g1 g2 g3 g4 g5 g6 g8
        omega
      have e8 : t8 = 0 := by
        clear g0 g1 g2 g3 g4 g5 g6 g7
        omega
      clear g0 g1 g2 g3 g4 g5 g6 g7 g8
      omega
    · -- plain leaf
      have e0 : t0 = 1 := by
        clear g1 g2 g3 g4 g5 g6 g7 g8
        omega
      have e1 : t1 = 1 := by
        clear g0 g2 g3 g4 g5 g6 g7 g8
        omega
      have e2 : t2 = 0 := by
        clear g0 g1 g3 g4 g5 g6 g7 g8
        omega
      have e3 : t3 = 0 := by
        clear g0 g1 g2 g4 g5 g6 g7 g8
        omega
      have e4 : t4 = 1 := by
        clear g0 g1 g2 g3 g5 g6 g7 g8
        omega
      have e5 : t5 = 0 := by
        clear g0 g1 g2 g3 g4 g6 g7 g8
        omega
      have e6 : t6 = 0 := by
        clear g0 g1 g2 g3 g4 g5 g7 g8
        omega
      have e7 : t7 = 0 := by
        clear g0 g1 g2 g3 g4 g5 g6 g8
        omega
      have e8 : t8 = 1 := by
        clear g0 g1 g2 g3 g4 g5 g6 g7
        omega
      clear g0 g1 g2 g3 g4 g5 g6 g7 g8
      omega
    · -- plain leaf
      have e0 : t0 = 0 := by
        clear g1 g2 g3 g4 g5 g6 g7 g8
        omega
      have e1 : t1 = 0 := by
        clear g0 g2 g3 g4 g5 g6 g7 g8
        omega
      have e2 : t2 = 0 := by
        clear g0 g1 g3 g4 g5 g6 g7 g8
        omega
      have e3 : t3 = 0 := by
        clear g0 g1 g2 g4 g5 g6 g7 g8
        omega
      have e4 : t4 = 1 := by
        clear g0 g1 g2 g3 g5 g6 g7 g8
        omega
      have e5 : t5 = 0 := by
        clear g0 g1 g2 g3 g4 g6 g7 g8
        omega
      have e6 : t6 = 0 := by
        clear g0 g1 g2 g3 g4 g5 g7 g8
        omega
      have e7 : t7 = 0 := by
        clear g0 g1 g2 g3 g4 g5 g6 g8
        omega
      have e8 : t8 = 1 := by
        clear g0 g1 g2 g3 g4 g5 g6 g7
        omega
      clear g0 g1 g2 g3 g4 g5 g6 g7 g8
      omega
    · -- plain leaf
      have e0 : t0 = 0 := by
        clear g1 g2 g3 g4 g5 g6 g7 g8
        omega
      have e1 : t1 = 0 := by
        clear g0 g2 g3 g4 g5 g6 g7 g8
        omega
      have e2 : t2 = 0 := by
        clear g0 g1 g3 g4 g5 g6 g7 g8
        omega
      have e3 : t3 = 0 := by
        clear g0 g1 g2 g4 g5 g6 g7 g8
        omega
      have e4 : t4 = 0 := by
        clear g0 g1 g2 g3 g5 g6 g7 g8
        omega
      have e5 : t5 = 0 := by
        clear g0 g1 g2 g3 g4 g6 g7 g8
        omega
      have e6 : t6 = 0 := by
        clear g0 g1 g2 g3 g4 g5 g7 g8
        omega
      have e7 : t7 = 0 := by
        clear g0 g1 g2 g3 g4 g5 g6 g8
        omega
      have e8 : t8 = 0 := by
        clear g0 g1 g2 g3 g4 g5 g6 g7
        omega
      clear g0 g1 g2 g3 g4 g5 g6 g7 g8
      omega
    · -- plain leaf
      have e0 : t0 = 0 := by
        clear g1 g2 g3 g4 g5 g6 g7 g8
        omega
      have e1 : t1 = 0 := by
        clear g0 g2 g3 g4 g5 g6 g7 g8
        omega
      have e2 : t2 = 0 := by
        clear g0 g1 g3 g4 g5 g6 g7 g8
        omega
      have e3 : t3 = 0 := by
        clear g0 g1 g2 g4 g5 g6 g7 g8
        omega
      have e4 : t4 = 0 := by
        clear g0 g1 g2 g3 g5 g6 g7 g8
        omega
      have e5 : t5 = 0 := by
        clear g0 g1 g2 g3 g4 g6 g7 g8
        omega
      have e6 : t6 = 0 := by
        clear g0 g1 g2 g3 g4 g5 g7 g8
        omega
      have e7 : t7 = 0 := by
        clear g0 g1 g2 g3 g4 g5 g6 g8
        omega
      have e8 : t8 = 0 := by
        clear g0 g1 g2 g3 g4 g5 g6 g7
        omega
      clear g0 g1 g2 g3 g4 g5 g6 g7 g8
      omega
  · rcases (show y + 3 ≤ j ∨ y + 2 = j ∨ y + 1 = j ∨ y = j ∨ y = j + 1 ∨ y = j + 2 ∨ y = j + 3 ∨ j + 4 ≤ y by
        clear g0 g1 g2 g3 g4 g5 g6 g7 g8; omega) with hpy | hpy | hpy | hpy | hpy | hpy | hpy | hpy
    · -- plain leaf
      have e0 : t0 = 0 := by
        clear g1 g2 g3 g4 g5 g6 g7 g8
        omega
      have e1 : t1 = 0 := by
        clear g0 g2 g3 g4 g5 g6 g7 g8
        omega
      have e2 : t2 = 0 := by
        clear g0 g1 g3 g4 g5 g6 g7 g8
        omega
      have e3 : t3 = 0 := by
        clear g0 g1 g2 g4 g5 g6 g7 g8
        omega
      have e4 : t4 = 0 := by
        clear g0 g1 g2 g3 g5 g6 g7 g8
        omega
      have e5 : t5 = 0 := by
        clear g0 g1 g2 g3 g4 g6 g7 g8
        omega
      have e6 : t6 = 0 := by
        clear g0 g1 g2 g3 g4 g5 g7 g8
        omega
      have e7 : t7 = 0 := by
        clear g0 g1 g2 g3 g4 g5 g6 g8
        omega
      have e8 : t8 = 0 := by
        clear g0 g1 g2 g3 g4 g5 g6 g7
        omega
      clear g0 g1 g2 g3 g4 g5 g6 g7 g8
      omega
    · -- plain leaf
      have e0 : t0 = 0 := by
        clear g1 g2 g3 g4 g5 g6 g7 g8
        omega
      have e1 : t1 = 0 := by
        clear g0 g2 g3 g4 g5 g6 g7 g8
        omega
      have e2 : t2 = 0 := by
        clear g0 g1 g3 g4 g5 g6 g7 g8
        omega
      have e3 : t3 = 0 := by
        clear g0 g1 g2 g4 g5 g6 g7 g8
        omega
      have e4 : t4 = 0 := by
        clear g0 g1 g2 g3 g5 g6 g7 g8
        omega
      have e5 : t5 = 0 := by
        clear g0 g1 g2 g3 g4 g6 g7 g8
        omega
      have e6 : t6 = 0 := by
        clear g0 g1 g2 g3 g4 g5 g7 g8
        omega
      have e7 : t7 = 0 := by
        clear g0 g1 g2 g3 g4 g5 g6 g8
        omega
      have e8 : t8 = 0 := by
        clear g0 g1 g2 g3 g4 g5 g6 g7
        omega
      clear g0 g1 g2 g3 g4 g5 g6 g7 g8
      omega
    · -- plain leaf
      have e0 : t0 = 0 := by
        clear g1 g2 g3 g4 g5 g6 g7 g8
        omega
      have e1 : t1 = 0 := by
        clear g0 g2 g3 g4 g5 g6 g7 g8
        omega
      have e2 : t2 = 0 := by
        clear g0 g1 g3 g4 g5 g6 g7 g8
        omega
      have e3 : t3 = 0 := by
        clear g0 g1 g2 g4 g5 g6 g7 g8
        omega
      have e4 : t4 = 0 := by
        clear g0 g1 g2 g3 g5 g6 g7 g8
        omega
      have e5 : t5 = 0 := by
        clear g0 g1 g2 g3 g4 g6 g7 g8
        omega
      have e6 : t6 = 0 := by
        clear g0 g1 g2 g3 g4 g5 g7 g8
        omega
      have e7 : t7 = 1 := by
        clear g0 g1 g2 g3 g4 g5 g6 g8
        omega
      have e8 : t8 = 0 := by
        clear g0 g1 g2 g3 g4 g5 g6 g7
        omega
      clear g0 g1 g2 g3 g4 g5 g6 g7 g8
      omega
    · -- plain leaf
      have e0 : t0 = 0 := by
        clear g1 g2 g3 g4 g5 g6 g7 g8
        omega
      have e1 : t1 = 1 := by
        clear g0 g2 g3 g4 g5 g6 g7 g8
        omega
      have e2 : t2 = 0 := by
        clear g0 g1 g3 g4 g5 g6 g7 g8
        omega
      have e3 : t3 = 0 := by
        clear g0 g1 g2 g4 g5 g6 g7 g8
        omega
      have e4 : t4 = 0 := by
        clear g0 g1 g2 g3 g5 g6 g7 g8
        omega
      have e5 : t5 = 0 := by
        clear g0 g1 g2 g3 g4 g6 g7 g8
        omega
      have e6 : t6 = 0 := by
        clear g0 g1 g2 g3 g4 g5 g7 g8
        omega
      have e7 : t7 = 1 := by
        clear g0 g1 g2 g3 g4 g5 g6 g8
        omega
      have e8 : t8 = 0 := by
        clear g0 g1 g2 g3 g4 g5 g6 g7
        omega
      clear g0 g1 g2 g3 g4 g5 g6 g7 g8
      omega
    · -- plain leaf
      have e0 : t0 = 0 := by
        clear g1 g2 g3 g4 g5 g6 g7 g8
        omega
      have e1 : t1 = 1 := by
        clear g0 g2 g3 g4 g5 g6 g7 g8
        omega
      have e2 : t2 = 0 := by
        clear g0 g1 g3 g4 g5 g6 g7 g8
        omega
      have e3 : t3 = 0 := by
        clear g0 g1 g2 g4 g5 g6 g7 g8
        omega
      have e4 : t4 = 0 := by
        clear g0 g1 g2 g3 g5 g6 g7 g8
        omega
      have e5 : t5 = 0 := by
        clear g0 g1 g2 g3 g4 g6 g7 g8
        omega
      have e6 : t6 = 0 := by
        clear g0 g1 g2 g3 g4 g5 g7 g8
        omega
      have e7 : t7 = 0 := by
        clear g0 g1 g2 g3 g4 g5 g6 g8
        omega
      have e8 : t8 = 1 := by
        clear g0 g1 g2 g3 g4 g5 g6 g7
        omega
      clear g0 g1 g2 g3 g4 g5 g6 g7 g8
      omega
    · -- plain leaf
      have e0 : t0 = 0 := by
        clear g1 g2 g3 g4 g5 g6 g7 g8
        omega
      have e1 : t1 = 0 := by
        clear g0 g2 g3 g4 g5 g6 g7 g8
        omega
      have e2 : t2 = 0 := by
        clear g0 g1 g3 g4 g5 g6 g7 g8
        omega
      have e3 : t3 = 0 := by
        clear g0 g1 g2 g4 g5 g6 g7 g8
        omega
      have e4 : t4 = 0 := by
        clear g0 g1 g2 g3 g5 g6 g7 g8
        omega
      have e5 : t5 = 0 := by
        clear g0 g1 g2 g3 g4 g6 g7 g8
        omega
      have e6 : t6 = 0 := by
        clear g0 g1 g2 g3 g4 g5 g7 g8
        omega
      have e7 : t7 = 0 := by
        clear g0 g1 g2 g3 g4 g5 g6 g8
        omega
      have e8 : t8 = 1 := by
        clear g0 g1 g2 g3 g4 g5 g6 g7
        omega
      clear g0 g1 g2 g3 g4 g5 g6 g7 g8
      omega
    · -- plain leaf
      have e0 : t0 = 0 := by
        clear g1 g2 g3 g4 g5 g6 g7 g8
        omega
      have e1 : t1 = 0 := by
        clear g0 g2 g3 g4 g5 g6 g7 g8
        omega
      have e2 : t2 = 0 := by
        clear g0 g1 g3 g4 g5 g6 g7 g8
        omega
      have e3 : t3 = 0 := by
        clear g0 g1 g2 g4 g5 g6 g7 g8
        omega
      have e4 : t4 = 0 := by
        clear g0 g1 g2 g3 g5 g6 g7 g8
        omega
      have e5 : t5 = 0 := by
        clear g0 g1 g2 g3 g4 g6 g7 g8
        omega
      have e6 : t6 = 0 := by
        clear g0 g1 g2 g3 g4 g5 g7 g8
        omega
      have e7 : t7 = 0 := by
        clear g0 g1 g2 g3 g4 g5 g6 g8
        omega
      have e8 : t8 = 0 := by
        clear g0 g1 g2 g3 g4 g5 g6 g7
        omega
      clear g0 g1 g2 g3 g4 g5 g6 g7 g8
      omega
    · -- plain leaf
      have e0 : t0 = 0 := by
        clear g1 g2 g3 g4 g5 g6 g7 g8
        omega
      have e1 : t1 = 0 := by
        clear g0 g2 g3 g4 g5 g6 g7 g8
        omega
      have e2 : t2 = 0 := by
        clear g0 g1 g3 g4 g5 g6 g7 g8
        omega
      have e3 : t3 = 0 := by
        clear g0 g1 g2 g4 g5 g6 g7 g8
        omega
      have e4 : t4 = 0 := by
        clear g0 g1 g2 g3 g5 g6 g7 g8
        omega
      have e5 : t5 = 0 := by
        clear g0 g1 g2 g3 g4 g6 g7 g8
        omega
      have e6 : t6 = 0 := by
        clear g0 g1 g2 g3 g4 g5 g7 g8
        omega
      have e7 : t7 = 0 := by
        clear g0 g1 g2 g3 g4 g5 g6 g8
        omega
      have e8 : t8 = 0 := by
        clear g0 g1 g2 g3 g4 g5 g6 g7
        omega
      clear g0 g1 g2 g3 g4 g5 g6 g7 g8
      omega
  · rcases (show y + 3 ≤ j ∨ y + 2 = j ∨ y + 1 = j ∨ y = j ∨ y = j + 1 ∨ y = j + 2 ∨ y = j + 3 ∨ j + 4 ≤ y by
        clear g0 g1 g2 g3 g4 g5 g6 g7 g8; omega) with hpy | hpy | hpy | hpy | hpy | hpy | hpy | hpy
    · -- plain leaf
      have e0 : t0 = 0 := by
        clear g1 g2 g3 g4 g5 g6 g7 g8
        omega
      have e1 : t1 = 0 := by
        clear g0 g2 g3 g4 g5 g6 g7 g8
        omega
      have e2 : t2 = 0 := by
        clear g0 g1 g3 g4 g5 g6 g7 g8
        omega
      have e3 : t3 = 0 := by
        clear g0 g1 g2 g4 g5 g6 g7 g8
        omega
      have e4 : t4 = 0 := by
        clear g0 g1 g2 g3 g5 g6 g7 g8
        omega
      have e5 : t5 = 0 := by
        clear g0 g1 g2 g3 g4 g6 g7 g8
        omega
      have e6 : t6 = 0 := by
        clear g0 g1 g2 g3 g4 g5 g7 g8
        omega
      have e7 : t7 = 0 := by
        clear g0 g1 g2 g3 g4 g5 g6 g8
        omega
      have e8 : t8 = 0 := by
        clear g0 g1 g2 g3 g4 g5 g6 g7
        omega
      clear g0 g1 g2 g3 g4 g5 g6 g7 g8
      omega
    · by_cases hR : x + 1 = w ∧ i = 0
      · -- right wrap active
        have e0 : t0 = 0 := by
          clear g1 g2 g3 g4 g5 g6 g7 g8
          omega
        have e1 : t1 = 0 := by
          clear g0 g2 g3 g4 g5 g6 g7 g8
          omega
        have e2 : t2 = 0 := by
          clear g0 g1 g3 g4 g5 g6 g7 g8
          omega
        have e3 : t3 = 0 := by
          clear g0 g1 g2 g4 g5 g6 g7 g8
          omega
        have e4 : t4 = 0 := by
          clear g0 g1 g2 g3 g5 g6 g7 g8
          omega
        have e5 : t5 = 1 := by
          clear g0 g1 g2 g3 g4 g6 g7 g8
          omega
        have e6 : t6 = 0 := by
          clear g0 g1 g2 g3 g4 g5 g7 g8
          omega
        have e7 : t7 = 0 := by
          clear g0 g1 g2 g3 g4 g5 g6 g8
          omega
        have e8 : t8 = 0 := by
          clear g0 g1 g2 g3 g4 g5 g6 g7
          omega
        clear g0 g1 g2 g3 g4 g5 g6 g7 g8
        omega
      · -- right wrap inactive
        have e0 : t0 = 0 := by
          clear g1 g2 g3 g4 g5 g6 g7 g8
          omega
        have e1 : t1 = 0 := by
          clear g0 g2 g3 g4 g5 g6 g7 g8
          omega
        have e2 : t2 = 0 := by
          clear g0 g1 g3 g4 g5 g6 g7 g8
          omega
        have e3 : t3 = 0 := by
          clear g0 g1 g2 g4 g5 g6 g7 g8
          omega
        have e4 : t4 = 0 := by
          clear g0 g1 g2 g3 g5 g6 g7 g8
          omega
        have e5 : t5 = 0 := by
          clear g0 g1 g2 g3 g4 g6 g7 g8
          omega
        have e6 : t6 = 0 := by
          clear g0 g1 g2 g3 g4 g5 g7 g8
          omega
        have e7 : t7 = 0 := by
          clear g0 g1 g2 g3 g4 g5 g6 g8
          omega
        have e8 : t8 = 0 := by
          clear g0 g1 g2 g3 g4 g5 g6 g7
          omega
        clear g0 g1 g2 g3 g4 g5 g6 g7 g8
        omega
    · by_cases hR : x + 1 = w ∧ i = 0
      · -- right wrap active
        have e0 : t0 = 0 := by
          clear g1 g2 g3 g4 g5 g6 g7 g8
          omega
        have e1 : t1 = 0 := by
          clear g0 g2 g3 g4 g5 g6 g7 g8
          omega
        have e2 : t2 = 1 := by
          clear g0 g1 g3 g4 g5 g6 g7 g8
          omega
        have e3 : t3 = 0 := by
          clear g0 g1 g2 g4 g5 g6 g7 g8
          omega
        have e4 : t4 = 0 := by
          clear g0 g1 g2 g3 g5 g6 g7 g8
          omega
        have e5 : t5 = 1 := by
          clear g0 g1 g2 g3 g4 g6 g7 g8
          omega
        have e6 : t6 = 0 := by
          clear g0 g1 g2 g3 g4 g5 g7 g8
          omega
        have e7 : t7 = 0 := by
          clear g0 g1 g2 g3 g4 g5 g6 g8
          omega
        have e8 : t8 = 0 := by
          clear g0 g1 g2 g3 g4 g5 g6 g7
          omega
        clear g0 g1 g2 g3 g4 g5 g6 g7 g8
        omega
      · -- right wrap inactive
        have e0 : t0 = 0 := by
          clear g1 g2 g3 g4 g5 g6 g7 g8
          omega
        have e1 : t1 = 0 := by
          clear g0 g2 g3 g4 g5 g6 g7 g8
          omega
        have e2 : t2 = 0 := by
          clear g0 g1 g3 g4 g5 g6 g7 g8
          omega
        have e3 : t3 = 0 := by
          clear g0 g1 g2 g4 g5 g6 g7 g8
          omega
        have e4 : t4 = 0 := by
          clear g0 g1 g2 g3 g5 g6 g7 g8
          omega
        have e5 : t5 = 0 := by
          clear g0 g1 g2 g3 g4 g6 g7 g8
          omega
        have e6 : t6 = 0 := by
          clear g0 g1 g2 g3 g4 g5 g7 g8
          omega
        have e7 : t7 = 0 := by
          clear g0 g1 g2 g3 g4 g5 g6 g8
          omega
        have e8 : t8 = 0 := by
          clear g0 g1 g2 g3 g4 g5 g6 g7
          omega
        clear g0 g1 g2 g3 g4 g5 g6 g7 g8
        omega
    · by_cases hR : x + 1 = w ∧ i = 0
      · -- right wrap active
        have e0 : t0 = 0 := by
          clear g1 g2 g3 g4 g5 g6 g7 g8
          omega
        have e1 : t1 = 0 := by
          clear g0 g2 g3 g4 g5 g6 g7 g8
          omega
        have e2 : t2 = 1 := by
          clear g0 g1 g3 g4 g5 g6 g7 g8
          omega
        have e3 : t3 = 0 := by
          clear g0 g1 g2 g4 g5 g6 g7 g8
          omega
        have e4 : t4 = 0 := by
          clear g0 g1 g2 g3 g5 g6 g7 g8
          omega
        have e5 : t5 = 0 := by
          clear g0 g1 g2 g3 g4 g6 g7 g8
          omega
        have e6 : t6 = 1 := by
          clear g0 g1 g2 g3 g4 g5 g7 g8
          omega
        have e7 : t7 = 0 := by
          clear g0 g1 g2 g3 g4 g5 g6 g8
          omega
        have e8 : t8 = 0 := by
          clear g0 g1 g2 g3 g4 g5 g6 g7
          omega
        clear g0 g1 g2 g3 g4 g5 g6 g7 g8
        omega
      · -- right wrap inactive
        have e0 : t0 = 0 := by
          clear g1 g2 g3 g4 g5 g6 g7 g8
          omega
        have e1 : t1 = 0 := by
          clear g0 g2 g3 g4 g5 g6 g7 g8
          omega
        have e2 : t2 = 0 := by
          clear g0 g1 g3 g4 g5 g6 g7 g8
          omega
        have e3 : t3 = 0 := by
          clear g0 g1 g2 g4 g5 g6 g7 g8
          omega
        have e4 : t4 = 0 := by
          clear g0 g1 g2 g3 g5 g6 g7 g8
          omega
        have e5 : t5 = 0 := by
          clear g0 g1 g2 g3 g4 g6 g7 g8
          omega
        have e6 : t6 = 0 := by
          clear g0 g1 g2 g3 g4 g5 g7 g8
          omega
        have e7 : t7 = 0 := by
          clear g0 g1 g2 g3 g4 g5 g6 g8
          omega
        have e8 : t8 = 0 := by
          clear g0 g1 g2 g3 g4 g5 g6 g7
          omega
        clear g0 g1 g2 g3 g4 g5 g6 g7 g8
        omega
    · by_cases hR : x + 1 = w ∧ i = 0
      · -- right wrap active
        have e0 : t0 = 0 := by
          clear g1 g2 g3 g4 g5 g6 g7 g8
          omega
        have e1 : t1 = 0 := by
          clear g0 g2 g3 g4 g5 g6 g7 g8
          omega
        have e2 : t2 = 0 := by
          clear g0 g1 g3 g4 g5 g6 g7 g8
          omega
        have e3 : t3 = 0 := by
          clear g0 g1 g2 g4 g5 g6 g7 g8
          omega
        have e4 : t4 = 0 := by
          clear g0 g1 g2 g3 g5 g6 g7 g8
          omega
        have e5 : t5 = 0 := by
          clear g0 g1 g2 g3 g4 g6 g7 g8
          omega
        have e6 : t6 = 1 := by
          clear g0 g1 g2 g3 g4 g5 g7 g8
          omega
        have e7 : t7 = 0 := by
          clear g0 g1 g2 g3 g4 g5 g6 g8
          omega
        have e8 : t8 = 0 := by
          clear g0 g1 g2 g3 g4 g5 g6 g7
          omega
        clear g0 g1 g2 g3 g4 g5 g6 g7 g8
        omega
      · -- right wrap inactive
        have e0 : t0 = 0 := by
          clear g1 g2 g3 g4 g5 g6 g7 g8
          omega
        have e1 : t1 = 0 := by
          clear g0 g2 g3 g4 g5 g6 g7 g8
          omega
        have e2 : t2 = 0 := by
          clear g0 g1 g3 g4 g5 g6 g7 g8
          omega
        have e3 : t3 = 0 := by
          clear g0 g1 g2 g4 g5 g6 g7 g8
          omega
        have e4 : t4 = 0 := by
          clear g0 g1 g2 g3 g5 g6 g7 g8
          omega
        have e5 : t5 = 0 := by
          clear g0 g1 g2 g3 g4 g6 g7 g8
          omega
        have e6 : t6 = 0 := by
          clear g0 g1 g2 g3 g4 g5 g7 g8
          omega
        have e7 : t7 = 0 := by
          clear g0 g1 g2 g3 g4 g5 g6 g8
          omega
        have e8 : t8 = 0 := by
          clear g0 g1 g2 g3 g4 g5 g6 g7
          omega
        clear g0 g1 g2 g3 g4 g5 g6 g7 g8
        omega
    · -- plain leaf
      have e0 : t0 = 0 := by
        clear g1 g2 g3 g4 g5 g6 g7 g8
        omega
      have e1 : t1 = 0 := by
        clear g0 g2 g3 g4 g5 g6 g7 g8
        omega
      have e2 : t2 = 0 := by
        clear g0 g1 g3 g4 g5 g6 g7 g8
        omega
      have e3 : t3 = 0 := by
        clear g0 g1 g2 g4 g5 g6 g7 g8
        omega
      have e4 : t4 = 0 := by
        clear g0 g1 g2 g3 g5 g6 g7 g8
        omega
      have e5 : t5 = 0 := by
        clear g0 g1 g2 g3 g4 g6 g7 g8
        omega
      have e6 : t6 = 0 := by
        clear g0 g1 g2 g3 g4 g5 g7 g8
        omega
      have e7 : t7 = 0 := by
        clear g0 g1 g2 g3 g4 g5 g6 g8
        omega
      have e8 : t8 = 0 := by
        clear g0 g1 g2 g3 g4 g5 g6 g7
        omega
      clear g0 g1 g2 g3 g4 g5 g6 g7 g8
      omega
    · -- plain leaf
      have e0 : t0 = 0 := by
        clear g1 g2 g3 g4 g5 g6 g7 g8
        omega
      have e1 : t1 = 0 := by
        clear g0 g2 g3 g4 g5 g6 g7 g8
        omega
      have e2 : t2 = 0 := by
        clear g0 g1 g3 g4 g5 g6 g7 g8
        omega
      have e3 : t3 = 0 := by
        clear g0 g1 g2 g4 g5 g6 g7 g8
        omega
      have e4 : t4 = 0 := by
        clear g0 g1 g2 g3 g5 g6 g7 g8
        omega
      have e5 : t5 = 0 := by
        clear g0 g1 g2 g3 g4 g6 g7 g8
        omega
      have e6 : t6 = 0 := by
        clear g0 g1 g2 g3 g4 g5 g7 g8
        omega
      have e7 : t7 = 0 := by
        clear g0 g1 g2 g3 g4 g5 g6 g8
        omega
      have e8 : t8 = 0 := by
        clear g0 g1 g2 g3 g4 g5 g6 g7
        omega
      clear g0 g1 g2 g3 g4 g5 g6 g7 g8
      omega
    · -- plain leaf
      have e0 : t0 = 0 := by
        clear g1 g2 g3 g4 g5 g6 g7 g8
        omega
      have e1 : t1 = 0 := by
        clear g0 g2 g3 g4 g5 g6 g7 g8
        omega
      have e2 : t2 = 0 := by
        clear g0 g1 g3 g4 g5 g6 g7 g8
        omega
      have e3 : t3 = 0 := by
        clear g0 g1 g2 g4 g5 g6 g7 g8
        omega
      have e4 : t4 = 0 := by
        clear g0 g1 g2 g3 g5 g6 g7 g8
        omega
      have e5 : t5 = 0 := by
        clear g0 g1 g2 g3 g4 g6 g7 g8
        omega
      have e6 : t6 = 0 := by
        clear g0 g1 g2 g3 g4 g5 g7 g8
        omega
      have e7 : t7 = 0 := by
        clear g0 g1 g2 g3 g4 g5 g6 g8
        omega
      have e8 : t8 = 0 := by
        clear g0 g1 g2 g3 g4 g5 g6 g7
        omega
      clear g0 g1 g2 g3 g4 g5 g6 g7 g8
      omega

/-- On every cell of the grid, one step of the source's rule maps the block
image back to the block pattern, edge positions and wrap-around reads
included. -/
theorem shouldLive_block (w h i j : Nat) (hw : 4 ≤ w) (hh : 4 ≤ h)
    (hi : i + 2 ≤ w) (hj : j + 2 ≤ h) (x y : Nat) (hx : x < w) (hy : y < h) :
    shouldLive w (canonGrid w h (blockP i j)) x y = blockP i j x y := by
  simp only [shouldLive, neighborsLiving, cell_canonGrid, add_zero]
  have h0 := ite_one_zero_cases _ _
    (lookP_blockP w h i j hw hh hi hj (x : Int) (y : Int)
      (by omega) (by omega) (by omega) (by omega))
  have g0 : (lookP w h (blockP i j) (x : Int) (y : Int) = 1 ∧
        ((x = i ∨ x = i + 1) ∧ (y = j ∨ y = j + 1))) ∨
      (lookP w h (blockP i j) (x : Int) (y : Int) = 0 ∧
        ¬((x = i ∨ x = i + 1) ∧ (y = j ∨ y = j + 1))) := by omega
  clear h0
  have h1 := ite_one_zero_cases _ _
    (lookP_blockP w h i j hw hh hi hj ((x : Int) - 1) (y : Int)
      (by omega) (by omega) (by omega) (by omega))
  have g1 : (lookP w h (blockP i j) ((x : Int) - 1) (y : Int) = 1 ∧
        ((1 ≤ x ∧ (x - 1 = i ∨ x - 1 = i + 1) ∧ (y = j ∨ y = j + 1)) ∨
          (x = 0 ∧ 1 ≤ y ∧ i + 2 = w ∧ (y = j + 1 ∨ y = j + 2)))) ∨
      (lookP w h (blockP i j) ((x : Int) - 1) (y : Int) = 0 ∧
        ¬((1 ≤ x ∧ (x - 1 = i ∨ x - 1 = i + 1) ∧ (y = j ∨ y = j + 1)) ∨
          (x = 0 ∧ 1 ≤ y ∧ i + 2 = w ∧ (y = j + 1 ∨ y = j + 2)))) := by omega
  clear h1
  have h2 := ite_one_zero_cases _ _
    (lookP_blockP w h i j hw hh hi hj ((x : Int) + 1) (y : Int)
      (by omega) (by omega) (by omega) (by omega))
  have g2 : (lookP w h (blockP i j) ((x : Int) + 1) (y : Int) = 1 ∧
        ((x + 1 < w ∧ (x + 1 = i ∨ x + 1 = i + 1) ∧ (y = j ∨ y = j + 1)) ∨
          (x + 1 = w ∧ y + 1 < h ∧ i = 0 ∧ (y + 1 = j ∨ y + 1 = j + 1)))) ∨
      (lookP w h (blockP i j) ((x : Int) + 1) (y : Int) = 0 ∧
        ¬((x + 1 < w ∧ (x + 1 = i ∨ x + 1 = i + 1) ∧ (y = j ∨ y = j + 1)) ∨
          (x + 1 = w ∧ y + 1 < h ∧ i = 0 ∧ (y + 1 = j ∨ y + 1 = j + 1)))) := by omega
  clear h2
  have h3 := ite_one_zero_cases _ _
    (lookP_blockP w h i j hw hh hi hj (x : Int) ((y : Int) + 1)
      (by omega) (by omega) (by omega) (by omega))
  have g3 : (lookP w h (blockP i j) (x : Int) ((y : Int) + 1) = 1 ∧
        (y + 1 < h ∧ (x = i ∨ x = i + 1) ∧ (y + 1 = j ∨ y + 1 = j + 1))) ∨
      (lookP w h (blockP i j) (x : Int) ((y : Int) + 1) = 0 ∧
        ¬(y + 1 < h ∧ (x = i ∨ x = i + 1) ∧ (y + 1 = j ∨ y + 1 = j + 1))) := by omega
  clear h3
  have h4 := ite_one_zero_cases _ _
    (lookP_blockP w h i j hw hh hi hj (x : Int) ((y : Int) - 1)
      (by omega) (by omega) (by omega) (by omega))
  have g4 : (lookP w h (blockP i j) (x : Int) ((y : Int) - 1) = 1 ∧
        (1 ≤ y ∧ (x = i ∨ x = i + 1) ∧ (y - 1 = j ∨ y - 1 = j + 1))) ∨
      (lookP w h (blockP i j) (x : Int) ((y : Int) - 1) = 0 ∧
        ¬(1 ≤ y ∧ (x = i ∨ x = i + 1) ∧ (y - 1 = j ∨ y - 1 = j + 1))) := by omega
  clear h4
  have h5 := ite_one_zero_cases _ _
    (lookP_blockP w h i j hw hh hi hj ((x : Int) + 1) ((y : Int) + 1)
      (by omega) (by omega) (by omega) (by omega))
  have g5 : (lookP w h (blockP i j) ((x : Int) + 1) ((y : Int) + 1) = 1 ∧
        ((x + 1 < w ∧ y + 1 < h ∧ (x + 1 = i ∨ x + 1 = i + 1) ∧ (y + 1 = j ∨ y + 1 = j + 1)) ∨
          (x + 1 = w ∧ y + 2 < h ∧ i = 0 ∧ (y + 2 = j ∨ y + 2 = j + 1)))) ∨
      (lookP w h (blockP i j) ((x : Int) + 1) ((y : Int) + 1) = 0 ∧
        ¬((x + 1 < w ∧ y + 1 < h ∧ (x + 1 = i ∨ x + 1 = i + 1) ∧ (y + 1 = j ∨ y + 1 = j + 1)) ∨
          (x + 1 = w ∧ y + 2 < h ∧ i = 0 ∧ (y + 2 = j ∨ y + 2 = j + 1)))) := by omega
  clear h5
  have h6 := ite_one_zero_cases _ _
    (lookP_blockP w h i j hw hh hi hj ((x : Int) + 1) ((y : Int) - 1)
      (by omega) (by omega) (by omega) (by omega))
  have g6 : (lookP w h (blockP i j) ((x : Int) + 1) ((y : Int) - 1) = 1 ∧
        ((x + 1 < w ∧ 1 ≤ y ∧ (x + 1 = i ∨ x + 1 = i + 1) ∧ (y - 1 = j ∨ y - 1 = j + 1)) ∨
          (x + 1 = w ∧ i = 0 ∧ (y = j ∨ y = j + 1)))) ∨
      (lookP w h (blockP i j) ((x : Int) + 1) ((y : Int) - 1) = 0 ∧
        ¬((x + 1 < w ∧ 1 ≤ y ∧ (x + 1 = i ∨ x + 1 = i + 1) ∧ (y - 1 = j ∨ y - 1 = j + 1)) ∨
          (x + 1 = w ∧ i = 0 ∧ (y = j ∨ y = j + 1)))) := by omega
  clear h6
  have h7 := ite_one_zero_cases _ _
    (lookP_blockP w h i j hw hh hi hj ((x : Int) - 1) ((y : Int) + 1)
      (by omega) (by omega) (by omega) (by omega))
  have g7 : (lookP w h (blockP i j) ((x : Int) - 1) ((y : Int) + 1) = 1 ∧
        ((1 ≤ x ∧ y + 1 < h ∧ (x - 1 = i ∨ x - 1 = i + 1) ∧ (y + 1 = j ∨ y + 1 = j + 1)) ∨
          (x = 0 ∧ i + 2 = w ∧ (y + 1 = j + 1 ∨ y + 1 = j + 2)))) ∨
      (lookP w h (blockP i j) ((x : Int) - 1) ((y : Int) + 1) = 0 ∧
        ¬((1 ≤ x ∧ y + 1 < h ∧ (x - 1 = i ∨ x - 1 = i + 1) ∧ (y + 1 = j ∨ y + 1 = j + 1)) ∨
          (x = 0 ∧ i + 2 = w ∧ (y + 1 = j + 1 ∨ y + 1 = j + 2)))) := by omega
  clear h7
  have h8 := ite_one_zero_cases _ _
    (lookP_blockP w h i j hw hh hi hj ((x : Int) - 1) ((y : Int) - 1)
      (by omega) (by omega) (by omega) (by omega))
  have g8 : (lookP w h (blockP i j) ((x : Int) - 1) ((y : Int) - 1) = 1 ∧
        ((1 ≤ x ∧ 1 ≤ y ∧ (x - 1 = i ∨ x - 1 = i + 1) ∧ (y - 1 = j ∨ y - 1 = j + 1)) ∨
          (x = 0 ∧ 2 ≤ y ∧ i + 2 = w ∧ (y = j + 2 ∨ y = j + 3)))) ∨
      (lookP w h (blockP i j) ((x : Int) - 1) ((y : Int) - 1) = 0 ∧
        ¬((1 ≤ x ∧ 1 ≤ y ∧ (x - 1 = i ∨ x - 1 = i + 1) ∧ (y - 1 = j ∨ y - 1 = j + 1)) ∨
          (x = 0 ∧ 2 ≤ y ∧ i + 2 = w ∧ (y = j + 2 ∨ y = j + 3)))) := by omega
  clear h8
  rw [Bool.eq_iff_iff]
  simp only [blockP, Bool.or_eq_true, Bool.and_eq_true, bne_iff_ne, beq_iff_eq,
    decide_eq_true_eq]
  exact block_rule_arith w h i j x y _ _ _ _ _ _ _ _ _ hw hh hi hj hx hy
    g0 g1 g2 g3 g4 g5 g6 g7 g8

/-! ### Helper lemmas shared by the claim theorems and witnesses -/

theorem cell_congr_idx (w : Nat) (g : ImageData) (x y x' y' : Int)
    (heq : x * 4 + y * w * 4 = x' * 4 + y' * w * 4) :
    cell w g x y = cell w g x' y' := by
  unfold cell
  rw [heq]

theorem canonGrid_none (w h : Nat) (p : Nat → Nat → Bool) (j : Int)
    (hj : j < 0 ∨ 4 * w * h ≤ j) : (canonGrid w h p).data j = none := by
  unfold canonGrid canonGridV
  dsimp only
  rw [if_neg (by omega)]

theorem canonGrid_span (w h : Nat) (p : Nat → Nat → Bool) :
    hasSpan w h (canonGrid w h p) := by
  intro j
  unfold canonGrid canonGridV
  dsimp only
  by_cases hj : 0 ≤ j ∧ j < 4 * w * h
  · simp [hj]
  · simp [hj]

/-- Unfolding of the boolean life rule into the arithmetic statement of the
source's comment block. -/
theorem shouldLive_iff (w : Nat) (b : ImageData) (x y : Int) :
    shouldLive w b x y = true ↔
      ((cell w b x y = 1 ∧
          (neighborsLiving w b x y = 2 ∨ neighborsLiving w b x y = 3)) ∨
        (cell w b x y = 0 ∧ neighborsLiving w b x y = 3)) := by
  have hc : cell w b x y = 0 ∨ cell w b x y = 1 := by
    unfold cell
    by_cases hb : b.data (x * 4 + y * w * 4) = some alive
    · right; rw [if_pos hb]
    · left; rw [if_neg hb]
  simp only [shouldLive, Bool.or_eq_true, Bool.and_eq_true, bne_iff_ne, beq_iff_eq]
  omega

/-! ### C1 -/

/-- C1: for every input image and every cell `(x, y)` with `x < width` and
`y < height`, the cell is alive in the image computed by `tick` iff it was
alive in the input with 2 or 3 living neighbors, or dead in the input with
exactly 3 living neighbors, the neighbor count being `neighborsLiving`: the
sum over the 8 offsets of the input's `cell` read taken as 0/1. -/
theorem tick_life_rule (w h : Nat) (b : ImageData) (x y : Nat)
    (hx : x < w) (hy : y < h) :
    cell w (tick w h b) x y = 1 ↔
      ((cell w b x y = 1 ∧
          (neighborsLiving w b x y = 2 ∨ neighborsLiving w b x y = 3)) ∨
        (cell w b x y = 0 ∧ neighborsLiving w b x y = 3)) := by
  rw [tick_eq_canon, cell_canonV_in w h _ x y hx hy, ← shouldLive_iff w b x y]
  cases hsl : shouldLive w b (x : Int) (y : Int) <;> simp [hsl, alive, dead]

theorem tick_life_rule_witness :
    cell 1 (tick 1 1 (createImageData 1 1)) 0 0 = 1 ↔
      ((cell 1 (createImageData 1 1) 0 0 = 1 ∧
          (neighborsLiving 1 (createImageData 1 1) 0 0 = 2 ∨
            neighborsLiving 1 (createImageData 1 1) 0 0 = 3)) ∨
        (cell 1 (createImageData 1 1) 0 0 = 0 ∧
          neighborsLiving 1 (createImageData 1 1) 0 0 = 3)) :=
  tick_life_rule 1 1 (createImageData 1 1) 0 0 (by decide) (by decide)

/-! ### C2 -/

/-- C2 (refuting the bounded border policy): on a 2x2 grid whose only living
cell is `(1, 0)`, the out-of-range read `cell(g, -1, 1)` returns 1 (alive):
it wraps through the linear pixel buffer onto the in-grid cell `(1, 0)`
instead of returning the dead border value 0 that the spec prescribes. -/
theorem cell_oob_wrap_refutes_border_policy :
    cell 2 (canonGrid 2 2 (fun a b => decide (a = 1 ∧ b = 0))) (-1) 1 = 1 ∧
      cell 2 (canonGrid 2 2 (fun a b => decide (a = 1 ∧ b = 0))) 1 0 = 1 := by
  decide

/-! ### C3 -/

/-- C3: `tick` is a pure function of the bytes of its input snapshot: inputs
with identical buffers give bitwise-identical outputs, and calling it twice
on the same input gives bitwise-identical outputs.  In the embedding the
mutation of the fresh `after` buffer is explicit state passing through
`write`, and the input `before` is never written, so `tick` has no side
effect on the current generation by construction. -/
theorem tick_pure (w h : Nat) (g₁ g₂ : ImageData)
    (hdata : ∀ j : Int, g₁.data j = g₂.data j) :
    tick w h g₁ = tick w h g₂ ∧ tick w h g₁ = tick w h g₁ := by
  refine ⟨?_, rfl⟩
  have hcell : ∀ x y : Int, cell w g₁ x y = cell w g₂ x y := by
    intro x y
    unfold cell
    rw [hdata]
  have hn : ∀ x y : Int, neighborsLiving w g₁ x y = neighborsLiving w g₂ x y := by
    intro x y
    unfold neighborsLiving
    simp only [hcell]
  have hsl : (fun (x y : Nat) => if shouldLive w g₁ x y then alive else dead) =
      (fun (x y : Nat) => if shouldLive w g₂ x y then alive else dead) := by
    funext x y
    have : shouldLive w g₁ (x : Int) (y : Int) = shouldLive w g₂ (x : Int) (y : Int) := by
      unfold shouldLive
      rw [hcell, hn]
    rw [this]
  rw [tick_eq_fillLoop, tick_eq_fillLoop, hsl]

theorem tick_pure_witness :
    tick 1 1 (createImageData 1 1) = tick 1 1 (createImageData 1 1) ∧
      tick 1 1 (createImageData 1 1) = tick 1 1 (createImageData 1 1) :=
  tick_pure 1 1 (createImageData 1 1) (createImageData 1 1) (fun _ => rfl)

/-! ### C4 -/

/-- C4: the image computed by `tick` has the same width and height as the
input snapshot (it is a fresh `createImageData` of the same dimensions). -/
theorem tick_dims (w h : Nat) (g : ImageData)
    (hw : g.width = w) (hh : g.height = h) :
    (tick w h g).width = g.width ∧ (tick w h g).height = g.height := by
  rw [tick_eq_canon]
  exact ⟨by rw [hw]; rfl, by rw [hh]; rfl⟩

theorem tick_dims_witness :
    (tick 2 3 (createImageData 2 3)).width = (createImageData 2 3).width ∧
      (tick 2 3 (createImageData 2 3)).height = (createImageData 2 3).height :=
  tick_dims 2 3 (createImageData 2 3) rfl rfl

/-! ### C5 -/

/-- C5: in a grid of size at least 5x5 whose living cells are exactly the
horizontal blinker `(1,2), (2,2), (3,2)` (a canvas image, so all written
pixels are in canonical form), one `tick` produces exactly the vertical
blinker `(2,1), (2,2), (2,3)` and a second `tick` returns the original
image, bitwise. -/
theorem blinker_oscillates (w h : Nat) (hw : 5 ≤ w) (hh : 5 ≤ h)
    (g : ImageData) (hg : g = canonGrid w h blinkH) :
    tick w h g = canonGrid w h blinkV ∧ tick w h (tick w h g) = g := by
  subst hg
  have step1 : tick w h (canonGrid w h blinkH) = canonGrid w h blinkV := by
    rw [tick_eq_canon]
    have key : canonGridV w h
        (fun x y => if shouldLive w (canonGrid w h blinkH) x y then alive else dead) =
        canonGridV w h (fun x y => if blinkV x y then alive else dead) :=
      canonGridV_congr w h _ _ (fun x y hx hy => by
        rw [shouldLive_canon_supp w h blinkH (blinkH_supp w h hw hh) x y hx hy,
          lifeB_blinkH x y])
    rw [key]
    rfl
  have step2 : tick w h (canonGrid w h blinkV) = canonGrid w h blinkH := by
    rw [tick_eq_canon]
    have key : canonGridV w h
        (fun x y => if shouldLive w (canonGrid w h blinkV) x y then alive else dead) =
        canonGridV w h (fun x y => if blinkH x y then alive else dead) :=
      canonGridV_congr w h _ _ (fun x y hx hy => by
        rw [shouldLive_canon_supp w h blinkV (blinkV_supp w h hw hh) x y hx hy,
          lifeB_blinkV x y])
    rw [key]
    rfl
  exact ⟨step1, by rw [step1, step2]⟩

theorem blinker_oscillates_witness :
    tick 5 5 (canonGrid 5 5 blinkH) = canonGrid 5 5 blinkV ∧
      tick 5 5 (tick 5 5 (canonGrid 5 5 blinkH)) = canonGrid 5 5 blinkH :=
  blinker_oscillates 5 5 (by omega) (by omega) (canonGrid 5 5 blinkH) rfl

/-! ### C6 -/

/-- C6: a grid of size at least 4x4 whose living cells are exactly a 2x2
block (at any position fully inside the grid; a canvas image, so all written
pixels are in canonical form) is a fixed point of `tick`, bitwise — the
edge-wrapping reads of the source's index arithmetic never disturb it. -/
theorem block_still_life (w h i j : Nat) (hw : 4 ≤ w) (hh : 4 ≤ h)
    (hi : i + 2 ≤ w) (hj : j + 2 ≤ h) (g : ImageData)
    (hg : g = canonGrid w h (blockP i j)) :
    tick w h g = g := by
  subst hg
  rw [tick_eq_canon]
  have key : canonGridV w h
      (fun x y => if shouldLive w (canonGrid w h (blockP i j)) x y then alive else dead) =
      canonGridV w h (fun x y => if blockP i j x y then alive else dead) :=
    canonGridV_congr w h _ _ (fun x y hx hy => by
      rw [shouldLive_block w h i j hw hh hi hj x y hx hy])
  rw [key]
  rfl

theorem block_still_life_witness :
    tick 4 4 (canonGrid 4 4 (blockP 0 0)) = canonGrid 4 4 (blockP 0 0) :=
  block_still_life 4 4 0 0 (by omega) (by omega) (by omega) (by omega)
    (canonGrid 4 4 (blockP 0 0)) rfl

/-! ### C7 -/

/-- C7: `tick` on an image of the grid's span in which every in-grid cell is
dead returns an image of the same dimensions in which every in-grid cell is
dead. -/
theorem tick_empty (w h : Nat) (g : ImageData)
    (hnone : ∀ j : Int, j < 0 ∨ 4 * w * h ≤ j → g.data j = none)
    (hw : g.width = w) (hh : g.height = h)
    (hdead : ∀ x : Nat, x < w → ∀ y : Nat, y < h → cell w g x y = 0) :
    (tick w h g).width = g.width ∧ (tick w h g).height = g.height ∧
      ∀ x : Nat, x < w → ∀ y : Nat, y < h → cell w (tick w h g) x y = 0 := by
  have hread : ∀ x y : Int, cell w g x y = 0 := by
    intro x y
    by_cases hin : 0 ≤ x * 4 + y * (w : Int) * 4 ∧
        x * 4 + y * (w : Int) * 4 < 4 * w * h
    · have hidx : x * 4 + y * (w : Int) * 4 = 4 * (x + y * w) := by ring
      have h4 : (4 : Int) * ((w : Int) * (h : Int)) = 4 * (w : Int) * (h : Int) := by ring
      have hq : 0 ≤ x + y * (w : Int) ∧ x + y * (w : Int) < (w : Int) * (h : Int) := by
        omega
      have hcast : ((w * h : Nat) : Int) = (w : Int) * (h : Int) := by push_cast; ring
      have hwh : 0 < w * h := by omega
      obtain ⟨hw0, hh0⟩ := mul_pos_parts w h hwh
      set q : Int := x + y * (w : Int) with hqdef
      have ha : q.toNat % w < w := Nat.mod_lt _ hw0
      have hqn : q.toNat < w * h := by omega
      have hb : q.toNat / w < h := by
        rw [Nat.div_lt_iff_lt_mul hw0, Nat.mul_comm]
        omega
      have hab : q.toNat % w + w * (q.toNat / w) = q.toNat := Nat.mod_add_div _ _
      have hcast2 : ((w * (q.toNat / w) : Nat) : Int) =
          ((q.toNat / w : Nat) : Int) * (w : Int) := by push_cast; ring
      have hE : x * 4 + y * (w : Int) * 4 =
          ((q.toNat % w : Nat) : Int) * 4 + ((q.toNat / w : Nat) : Int) * (w : Int) * 4 := by
        omega
      rw [cell_congr_idx w g x y _ _ hE]
      exact hdead _ ha _ hb
    · unfold cell
      rw [hnone _ (by omega)]
      simp
  have hsl : ∀ x y : Int, shouldLive w g x y = false := by
    intro x y
    simp only [shouldLive, neighborsLiving, hread]
    rfl
  refine ⟨?_, ?_, ?_⟩
  · rw [tick_eq_canon, hw]; rfl
  · rw [tick_eq_canon, hh]; rfl
  · intro x hx y hy
    rw [tick_eq_canon, cell_canonV_in w h _ x y hx hy, hsl]
    simp [alive, dead]

theorem tick_empty_witness :
    (tick 2 2 (canonGrid 2 2 (fun _ _ => false))).width =
        (canonGrid 2 2 (fun _ _ => false)).width ∧
      cell 2 (tick 2 2 (canonGrid 2 2 (fun _ _ => false))) 1 1 = 0 := by
  have hmain := tick_empty 2 2 (canonGrid 2 2 (fun _ _ => false))
    (fun j hj => canonGrid_none 2 2 _ j hj) rfl rfl (by decide)
  exact ⟨hmain.1, hmain.2.2 1 (by omega) 1 (by omega)⟩

/-! ### C8 -/

/-- C8 (refuting the strict `set`): `write` at the out-of-range coordinates
`(-1, 1)` on a 2x2 all-dead grid raises nothing and silently overwrites the
in-grid cell `(1, 0)`: its red byte (buffer index 4) changes from `dead` to
`alive`, so the in-grid cell reads as alive afterwards. -/
theorem write_oob_mutates :
    (write 2 (canonGrid 2 2 (fun _ _ => false)) (-1) 1 alive).data 4 = some alive ∧
      (canonGrid 2 2 (fun _ _ => false)).data 4 = some dead ∧
      cell 2 (write 2 (canonGrid 2 2 (fun _ _ => false)) (-1) 1 alive) 1 0 = 1 ∧
      cell 2 (canonGrid 2 2 (fun _ _ => false)) 1 0 = 0 := by
  decide

/-- C8 (amended): what `write` actually does at arbitrary coordinates on a
buffer of the grid's span: each of the four byte stores lands at linear index
`x*4 + y*width*4 + c`; a store whose index lies inside the buffer takes
effect — for out-of-range `(x, y)` this silently overwrites whatever pixel
owns that index — and a store whose index leaves the buffer is silently
dropped.  No error is signalled.  For in-range coordinates this writes
exactly the pixel `(x, y)`. -/
theorem write_behavior (w h : Nat) (a : ImageData) (hspan : hasSpan w h a)
    (x y : Int) (v : Nat) (j : Int) :
    (write w a x y v).data j =
      if (j = x * 4 + y * w * 4 ∨ j = x * 4 + y * w * 4 + 1 ∨
          j = x * 4 + y * w * 4 + 2 ∨ j = x * 4 + y * w * 4 + 3) ∧
          (0 ≤ j ∧ j < 4 * w * h)
        then some (if j = x * 4 + y * w * 4 then v else 255)
      else a.data j := by
  have s1 : ∀ j' : Int,
      ((jsArraySet a.data (x * 4 + y * (w : Int) * 4 + 0) v) j').isSome = true ↔
        (0 ≤ j' ∧ j' < 4 * w * h) := by
    intro j'
    rw [jsArraySet_isSome]
    exact hspan j'
  have s2 : ∀ j' : Int,
      ((jsArraySet (jsArraySet a.data (x * 4 + y * (w : Int) * 4 + 0) v)
        (x * 4 + y * (w : Int) * 4 + 1) 255) j').isSome = true ↔
        (0 ≤ j' ∧ j' < 4 * w * h) := by
    intro j'
    rw [jsArraySet_isSome]
    exact s1 j'
  have s3 : ∀ j' : Int,
      ((jsArraySet (jsArraySet (jsArraySet a.data (x * 4 + y * (w : Int) * 4 + 0) v)
        (x * 4 + y * (w : Int) * 4 + 1) 255)
        (x * 4 + y * (w : Int) * 4 + 2) 255) j').isSome = true ↔
        (0 ≤ j' ∧ j' < 4 * w * h) := by
    intro j'
    rw [jsArraySet_isSome]
    exact s2 j'
  show (jsArraySet
      (jsArraySet
        (jsArraySet
          (jsArraySet a.data (x * 4 + y * (w : Int) * 4 + 0) v)
          (x * 4 + y * (w : Int) * 4 + 1) 255)
        (x * 4 + y * (w : Int) * 4 + 2) 255)
      (x * 4 + y * (w : Int) * 4 + 3) 255) j = _
  rw [jsArraySet_apply_iff _ _ _ _ (s3 (x * 4 + y * (w : Int) * 4 + 3)) j,
    jsArraySet_apply_iff _ _ _ _ (s2 (x * 4 + y * (w : Int) * 4 + 2)) j,
    jsArraySet_apply_iff _ _ _ _ (s1 (x * 4 + y * (w : Int) * 4 + 1)) j,
    jsArraySet_apply_iff _ _ _ _ (hspan (x * 4 + y * (w : Int) * 4 + 0)) j]
  split_ifs <;> first | rfl | omega

theorem write_behavior_witness :
    (write 1 (createImageData 1 1) 0 0 7).data 0 = some 7 := by
  have hmain := write_behavior 1 1 (createImageData 1 1)
    (createImageData_span 1 1) 0 0 7 0
  rw [hmain]
  norm_num

/-! ### C9 -/

/-- C9: the source's neighbor reads wrap through the linearized row-major
pixel buffer: for a buffer of the grid's span with `width ≥ 1`, a read at
`(-1, y)` with `1 ≤ y < height` is byte-for-byte the read of the in-grid
cell `(width-1, y-1)`, a read at `(width, y)` with `0 ≤ y < height-1` is the
read of the in-grid cell `(0, y+1)`, and the two reads whose linear index
leaves the buffer entirely — `(-1, 0)` and `(width, height-1)` — return
dead (0). -/
theorem cell_wrap_reads (w h : Nat) (g : ImageData) (hw : 1 ≤ w)
    (hnone : ∀ j : Int, j < 0 ∨ 4 * w * h ≤ j → g.data j = none) :
    (∀ y : Nat, 1 ≤ y → y < h →
      cell w g (-1) y = cell w g ((w - 1 : Nat) : Int) ((y - 1 : Nat) : Int)) ∧
    (∀ y : Nat, y < h - 1 →
      cell w g w y = cell w g 0 ((y + 1 : Nat) : Int)) ∧
    cell w g (-1) 0 = 0 ∧
    (1 ≤ h → cell w g w ((h - 1 : Nat) : Int) = 0) := by
  obtain ⟨w', rfl⟩ : ∃ w', w = w' + 1 := ⟨w - 1, by omega⟩
  refine ⟨?_, ?_, ?_, ?_⟩
  · intro y hy1 hy2
    obtain ⟨y', rfl⟩ : ∃ y', y = y' + 1 := ⟨y - 1, by omega⟩
    apply cell_congr_idx
    have e1 : y' + 1 - 1 = y' := by omega
    have e2 : w' + 1 - 1 = w' := by omega
    rw [e1, e2]
    push_cast
    ring
  · intro y hy
    apply cell_congr_idx
    push_cast
    ring
  · unfold cell
    rw [hnone _ (by omega)]
    simp
  · intro hh1
    obtain ⟨h', rfl⟩ : ∃ h', h = h' + 1 := ⟨h - 1, by omega⟩
    unfold cell
    have e1 : h' + 1 - 1 = h' := by omega
    rw [e1, hnone _ ?_]
    · simp
    · right
      have : ((w' + 1 : Nat) : Int) * 4 + ((h' : Nat) : Int) * ((w' + 1 : Nat) : Int) * 4 =
          4 * ((w' + 1 : Nat) : Int) * ((h' + 1 : Nat) : Int) := by push_cast; ring
      omega

theorem cell_wrap_reads_witness :
    cell 2 (canonGrid 2 2 (fun a b => decide (a = 1 ∧ b = 0))) (-1) 1 =
        cell 2 (canonGrid 2 2 (fun a b => decide (a = 1 ∧ b = 0))) 1 0 ∧
      cell 2 (canonGrid 2 2 (fun a b => decide (a = 1 ∧ b = 0))) 2 0 =
        cell 2 (canonGrid 2 2 (fun a b => decide (a = 1 ∧ b = 0))) 0 1 ∧
      cell 2 (canonGrid 2 2 (fun a b => decide (a = 1 ∧ b = 0))) (-1) 0 = 0 ∧
      cell 2 (canonGrid 2 2 (fun a b => decide (a = 1 ∧ b = 0))) 2 1 = 0 := by
  have hmain := cell_wrap_reads 2 2 (canonGrid 2 2 (fun a b => decide (a = 1 ∧ b = 0)))
    (by omega) (fun j hj => canonGrid_none 2 2 _ j hj)
  exact ⟨hmain.1 1 (by omega) (by omega), hmain.2.1 0 (by omega), hmain.2.2.1,
    hmain.2.2.2 (by omega)⟩

/-! ### C10 -/

/-- C10: every pixel of the image produced by `seed` and of the image
produced by each `tick` has green, blue and alpha bytes equal to 255 and red
byte equal to `alive` (0, cyan) or `dead` (255, white): the surface is
always fully opaque and two-colored. -/
theorem pixels_two_colors (w h : Nat) (b : ImageData) (r : Nat → Nat → Bool)
    (x y : Nat) (hx : x < w) (hy : y < h) :
    ((seed w h r).data ((4 * (x + w * y) : Nat) : Int) = some alive ∨
        (seed w h r).data ((4 * (x + w * y) : Nat) : Int) = some dead) ∧
      (seed w h r).data ((4 * (x + w * y) + 1 : Nat) : Int) = some 255 ∧
      (seed w h r).data ((4 * (x + w * y) + 2 : Nat) : Int) = some 255 ∧
      (seed w h r).data ((4 * (x + w * y) + 3 : Nat) : Int) = some 255 ∧
      ((tick w h b).data ((4 * (x + w * y) : Nat) : Int) = some alive ∨
        (tick w h b).data ((4 * (x + w * y) : Nat) : Int) = some dead) ∧
      (tick w h b).data ((4 * (x + w * y) + 1 : Nat) : Int) = some 255 ∧
      (tick w h b).data ((4 * (x + w * y) + 2 : Nat) : Int) = some 255 ∧
      (tick w h b).data ((4 * (x + w * y) + 3 : Nat) : Int) = some 255 := by
  have hred : ((4 * (x + w * y) : Nat) : Int) = ((4 * (x + w * y) + 0 : Nat) : Int) := by
    norm_num
  refine ⟨?_, ?_, ?_, ?_, ?_, ?_, ?_, ?_⟩
  · rw [seed_eq_canon, hred, canonV_data_block w h _ x y 0 hx hy (by omega)]
    cases hr : r x y <;> simp [hr]
  · rw [seed_eq_canon, canonV_data_block w h _ x y 1 hx hy (by omega)]
    norm_num
  · rw [seed_eq_canon, canonV_data_block w h _ x y 2 hx hy (by omega)]
    norm_num
  · rw [seed_eq_canon, canonV_data_block w h _ x y 3 hx hy (by omega)]
    norm_num
  · rw [tick_eq_canon, hred, canonV_data_block w h _ x y 0 hx hy (by omega)]
    cases hsl : shouldLive w b (x : Int) (y : Int) <;> simp [hsl]
  · rw [tick_eq_canon, canonV_data_block w h _ x y 1 hx hy (by omega)]
    norm_num
  · rw [tick_eq_canon, canonV_data_block w h _ x y 2 hx hy (by omega)]
    norm_num
  · rw [tick_eq_canon, canonV_data_block w h _ x y 3 hx hy (by omega)]
    norm_num

theorem pixels_two_colors_witness :
    ((seed 1 1 (fun _ _ => true)).data 0 = some alive ∨
        (seed 1 1 (fun _ _ => true)).data 0 = some dead) ∧
      (tick 1 1 (createImageData 1 1)).data 3 = some 255 := by
  have hmain := pixels_two_colors 1 1 (createImageData 1 1) (fun _ _ => true)
    0 0 (by omega) (by omega)
  exact ⟨hmain.1, hmain.2.2.2.2.2.2.2⟩

end GameOfLife
